import Mathlib

/-!
# Verification of the QMD tree-sitter external scanners

This file gives a shallow embedding, in Lean 4, of the three external
scanners of the `quarto-dev/q2` repository:

* the unified block/inline markdown scanner
  (`crates/tree-sitter-qmd/tree-sitter-markdown/src/scanner.c`),
* the markdown-inline scanner
  (`crates/tree-sitter-qmd/tree-sitter-markdown-inline/src/scanner.c`),
* the doctemplate scanner
  (`crates/tree-sitter-doctemplate/grammar/src/scanner.c`),

and proves properties of the embedded code.

## Modelling conventions

* The tree-sitter lexer handle (`lookahead` / `advance` / `eof` /
  `mark_end`) is modelled by the structure `TSLexer`: a fixed character list,
  a current position, and the last committed (`mark_end`) position.
  `advance` at end of input is a no-op, as in the real lexer.
* `uint8_t` fields and locals are modelled as `Nat` with an explicit
  `% 256` (`u8`) applied at every store, mirroring C's modular
  arithmetic on unsigned bytes.
* C loops are modelled by fuel-indexed structural recursion; every call
  site passes `l.input.length + 1` (or a stack-size bound), which always
  dominates the number of iterations because each iteration either
  advances the position of a position-bounded lexer or increases a
  bounded counter.  The fuel-zero fallback simply stops the loop.
* A scan result is the returned boolean, the `result_symbol` that was
  set on the successful path (`none` on declining paths), the updated
  scanner state and the updated lexer.
-/

/-- The tree-sitter lexer handle: a fixed input, the current position and
the last position committed by `mark_end`. -/
structure TSLexer where
  input : List Char
  pos : Nat
  committed : Nat
deriving DecidableEq, Repr

/-- `lexer->lookahead`: the character at the current position, `none` at
end of input. -/
def TSLexer.lookahead (l : TSLexer) : Option Char := l.input.get? l.pos

/-- `lexer->eof(lexer)`. -/
def TSLexer.eof (l : TSLexer) : Bool := decide (l.input.length ≤ l.pos)

/-- `lexer->advance(lexer, false)`: a no-op at end of input. -/
def TSLexer.adv (l : TSLexer) : TSLexer :=
  if l.pos < l.input.length then { l with pos := l.pos + 1 } else l

/-- `lexer->mark_end(lexer)`. -/
def TSLexer.markEnd (l : TSLexer) : TSLexer := { l with committed := l.pos }

/-- Test the lookahead against a concrete character. -/
def TSLexer.look (l : TSLexer) (c : Char) : Bool := l.lookahead = some c

/-- Build a lexer over a string, at position 0, nothing committed. -/
def TSLexer.mk0 (s : String) : TSLexer := ⟨s.toList, 0, 0⟩

/-- Lookahead satisfies a character predicate (false at end of input). -/
def TSLexer.lookIs (l : TSLexer) (p : Char → Bool) : Bool :=
  match l.lookahead with
  | some c => p c
  | none => false

/-- Reduction of a `uint8_t` store. -/
def u8 (n : Nat) : Nat := n % 256

namespace DT

/-! ## The doctemplate scanner
(`tree-sitter-doctemplate/grammar/src/scanner.c`) -/

/-- The `TokenType` enum of the doctemplate scanner. -/
inductive Tok where
  | KEYWORD_FOR_1
  | KEYWORD_FOR_2
  | KEYWORD_ENDFOR_1
  | KEYWORD_ENDFOR_2
  | KEYWORD_IF_1
  | KEYWORD_IF_2
  | KEYWORD_ELSE_1
  | KEYWORD_ELSE_2
  | KEYWORD_ELSEIF_1
  | KEYWORD_ELSEIF_2
  | KEYWORD_ENDIF_1
  | KEYWORD_ENDIF_2
deriving DecidableEq, Repr

/-- The doctemplate `Scanner` struct (a size echo only). -/
structure Scanner where
  own_size : Nat
deriving DecidableEq, Repr

/-- Result of a doctemplate scan: returned boolean, `result_symbol` when
one was set, final lexer. -/
structure Res where
  ret : Bool
  sym : Option Tok
  lex : TSLexer
deriving DecidableEq, Repr

/-- `EMIT_TOKEN`. -/
def emit (t : Tok) (l : TSLexer) : Res := ⟨true, some t, l⟩

/-- `LEX_STRING` (a sequence of `LEX_CHARACTER`s): each character must
match the lookahead and is advanced over; on mismatch the scan returns
false with the input consumed so far. -/
def lexString (cs : List Char) (l : TSLexer) : Bool × TSLexer :=
  match cs with
  | [] => (true, l)
  | c :: rest => if l.look c then lexString rest l.adv else (false, l)

/-- `lex_whitespace`: skip ASCII space and tab. -/
def lex_whitespace (fuel : Nat) (l : TSLexer) : TSLexer :=
  match fuel with
  | 0 => l
  | fuel + 1 =>
    if !l.eof && (l.look ' ' || l.look '\t') then lex_whitespace fuel l.adv
    else l

/-- Bottom of `scan`: the `if (lexer->lookahead == 'i')` fallthrough. -/
def scanI (kw2 : Bool) (l : TSLexer) : Res :=
  if l.look 'i' then
    match lexString ['i', 'f'] l with
    | (false, l') => ⟨false, none, l'⟩
    | (true, l') => emit (if kw2 then Tok.KEYWORD_IF_2 else Tok.KEYWORD_IF_1) l'
  else ⟨false, none, l⟩

/-- The `if (lexer->lookahead == 'e')` block of `scan`, with its
fallthroughs to the `'i'` check. -/
def scanE (kw2 : Bool) (l : TSLexer) : Res :=
  if l.look 'e' then
    let l := l.adv
    if l.look 'l' then
      match lexString ['l', 's', 'e'] l with
      | (false, l') => ⟨false, none, l'⟩
      | (true, l') =>
        if l'.look 'i' then
          match lexString ['i', 'f'] l' with
          | (false, l2) => ⟨false, none, l2⟩
          | (true, l2) =>
            emit (if kw2 then Tok.KEYWORD_ELSEIF_2 else Tok.KEYWORD_ELSEIF_1) l2
        else emit (if kw2 then Tok.KEYWORD_ELSE_2 else Tok.KEYWORD_ELSE_1) l'
    else if l.look 'n' then
      match lexString ['n', 'd'] l with
      | (false, l') => ⟨false, none, l'⟩
      | (true, l') =>
        if l'.look 'i' then
          match lexString ['i', 'f'] l' with
          | (false, l2) => ⟨false, none, l2⟩
          | (true, l2) =>
            emit (if kw2 then Tok.KEYWORD_ENDIF_2 else Tok.KEYWORD_ENDIF_1) l2
        else if l'.look 'f' then
          match lexString ['f', 'o', 'r'] l' with
          | (false, l2) => ⟨false, none, l2⟩
          | (true, l2) =>
            emit (if kw2 then Tok.KEYWORD_ENDFOR_2 else Tok.KEYWORD_ENDFOR_1) l2
        else scanI kw2 l'
    else scanI kw2 l
  else scanI kw2 l

/-- The doctemplate `scan`.  The scanner state and the valid-symbol mask
are parameters exactly as in the C signature, and are ignored exactly as
in the C body (`(void)(s)`; `valid_symbols` is never read). -/
def scan (s : Scanner) (l : TSLexer) (v : Tok → Bool) : Res :=
  if !(l.look '$') then ⟨false, none, l⟩ else
  let l := l.adv
  let p := if l.look '{' then (true, l.adv) else (false, l)
  let kw2 := p.1
  let l := lex_whitespace (p.2.input.length + 1) p.2
  if l.look 'f' then
    match lexString ['f', 'o', 'r'] l with
    | (false, l') => ⟨false, none, l'⟩
    | (true, l') => emit (if kw2 then Tok.KEYWORD_FOR_2 else Tok.KEYWORD_FOR_1) l'
  else scanE kw2 l

end DT

/-- C9: the doctemplate scanner's output depends only on the input
characters: for any two scanner states and any two valid-symbol masks,
`scan` on the same lexer returns the identical boolean, token and final
lexer; in particular (second conjunct) it emits `KEYWORD_FOR_1` on
`"$for"` even under the all-false mask, i.e. a token the mask did not
mark as valid. -/
theorem c9_doctemplate_scan_ignores_mask_and_state :
    (∀ (s₁ s₂ : DT.Scanner) (v₁ v₂ : DT.Tok → Bool) (l : TSLexer),
        DT.scan s₁ l v₁ = DT.scan s₂ l v₂)
  ∧ (DT.scan ⟨0⟩ (TSLexer.mk0 "$for") (fun _ => false)).sym = some DT.Tok.KEYWORD_FOR_1 :=
  ⟨fun _ _ _ _ _ => rfl, by decide⟩

namespace MDI

/-! ## The markdown-inline scanner
(`tree-sitter-qmd/tree-sitter-markdown-inline/src/scanner.c`) -/

/-- The `TokenType` enum of the markdown-inline scanner, in declaration
order. -/
inductive Tok where
  | ERROR
  | TRIGGER_ERROR
  | CODE_SPAN_START
  | CODE_SPAN_CLOSE
  | EMPHASIS_OPEN_STAR
  | EMPHASIS_OPEN_UNDERSCORE
  | EMPHASIS_CLOSE_STAR
  | EMPHASIS_CLOSE_UNDERSCORE
  | LAST_TOKEN_WHITESPACE
  | LAST_TOKEN_PUNCTUATION
  | STRIKEOUT_OPEN
  | STRIKEOUT_CLOSE
  | LATEX_SPAN_START
  | LATEX_SPAN_CLOSE
  | SINGLE_QUOTE_OPEN
  | SINGLE_QUOTE_CLOSE
  | DOUBLE_QUOTE_OPEN
  | DOUBLE_QUOTE_CLOSE
  | SUPERSCRIPT_OPEN
  | SUPERSCRIPT_CLOSE
  | SUBSCRIPT_OPEN
  | SUBSCRIPT_CLOSE
  | CITE_AUTHOR_IN_TEXT_WITH_OPEN_BRACKET
  | CITE_SUPPRESS_AUTHOR_WITH_OPEN_BRACKET
  | CITE_AUTHOR_IN_TEXT
  | CITE_SUPPRESS_AUTHOR
  | SHORTCODE_OPEN_ESCAPED
  | SHORTCODE_CLOSE_ESCAPED
  | SHORTCODE_OPEN
  | SHORTCODE_CLOSE
  | KEY_NAME_AND_EQUALS
  | UNCLOSED_SPAN
  | STRONG_EMPHASIS_OPEN_STAR
  | STRONG_EMPHASIS_CLOSE_STAR
  | STRONG_EMPHASIS_OPEN_UNDERSCORE
  | STRONG_EMPHASIS_CLOSE_UNDERSCORE
  | HTML_COMMENT
deriving DecidableEq, Repr

/-- `is_lookahead_line_end`. -/
def is_lookahead_line_end (l : TSLexer) : Bool :=
  l.look '\n' || l.look '\r' || l.eof

/-- `is_lookahead_whitespace`. -/
def is_lookahead_whitespace (l : TSLexer) : Bool :=
  l.look ' ' || l.look '\t' || is_lookahead_line_end l

/-- The markdown-inline `Scanner` struct: twelve `uint8_t` counters. -/
structure Scanner where
  state : Nat
  code_span_delimiter_length : Nat
  latex_span_delimiter_length : Nat
  num_emphasis_delimiters_left : Nat
  inside_shortcode : Nat
  inside_superscript : Nat
  inside_subscript : Nat
  inside_strikeout : Nat
  inside_single_quote : Nat
  inside_double_quote : Nat
  inside_latex_span : Nat
  inside_code_span : Nat
deriving DecidableEq, Repr

/-- `serialize`: the twelve counter bytes in declaration order (each
field is a `uint8_t`, so each written byte is the value mod 256). -/
def serialize (s : Scanner) : List Nat :=
  [u8 s.state, u8 s.code_span_delimiter_length, u8 s.latex_span_delimiter_length,
   u8 s.num_emphasis_delimiters_left, u8 s.inside_shortcode, u8 s.inside_superscript,
   u8 s.inside_subscript, u8 s.inside_strikeout, u8 s.inside_single_quote,
   u8 s.inside_double_quote, u8 s.inside_latex_span, u8 s.inside_code_span]

/-- `deserialize`: zero everything, then (when the buffer is non-empty)
read the twelve bytes back in order. -/
def deserialize (buffer : List Nat) : Scanner :=
  if 0 < buffer.length then
    ⟨buffer.getD 0 0, buffer.getD 1 0, buffer.getD 2 0, buffer.getD 3 0,
     buffer.getD 4 0, buffer.getD 5 0, buffer.getD 6 0, buffer.getD 7 0,
     buffer.getD 8 0, buffer.getD 9 0, buffer.getD 10 0, buffer.getD 11 0⟩
  else ⟨0, 0, 0, 0, 0, 0, 0, 0, 0, 0, 0, 0⟩

/-- Result of an inline scan. -/
structure Res where
  ret : Bool
  sym : Option Tok
  s : Scanner
  lex : TSLexer
deriving DecidableEq, Repr

/-- Count a run of `c` by plain `lexer->advance`, returning the raw
count. -/
def countRunL (fuel : Nat) (c : Char) (l : TSLexer) : Nat × TSLexer :=
  match fuel with
  | 0 => (0, l)
  | fuel + 1 =>
    if l.look c then
      let p := countRunL fuel c l.adv
      (p.1 + 1, p.2)
    else (0, l)

/-- The closing-delimiter lookahead loop of `parse_leaf_delimiter`. -/
def leafScanClose (fuel : Nat) (c : Char) (level : Nat) (close_level : Nat)
    (l : TSLexer) : Nat × TSLexer :=
  match fuel with
  | 0 => (close_level, l)
  | fuel + 1 =>
    if !l.eof then
      if l.look c then leafScanClose fuel c level (close_level + 1) l.adv
      else if close_level = level then (close_level, l)
      else leafScanClose fuel c level 0 l.adv
    else (close_level, l)

/-- Result of `parse_leaf_delimiter`: returned boolean, symbol, the new
values of the two by-reference state fields, final lexer. -/
structure LeafRes where
  ret : Bool
  sym : Option Tok
  dl : Nat
  ds : Nat
  lex : TSLexer
deriving DecidableEq, Repr

/-- `parse_leaf_delimiter`, over the `delimiter_length` and
`delimiter_state_field` by-reference bytes. -/
def parse_leaf_delimiter (dl ds : Nat) (v : Tok → Bool) (c : Char)
    (open_token close_token : Tok) (l : TSLexer) : LeafRes :=
  let p := countRunL (l.input.length + 1) c l
  let level := u8 p.1
  let l := p.2.markEnd
  if level = dl && v close_token then ⟨true, some close_token, 0, 0, l⟩
  else if v open_token then
    let q := leafScanClose (l.input.length + 1) c level 0 l
    if q.1 = level then ⟨true, some open_token, level, 1, q.2⟩
    else if v Tok.UNCLOSED_SPAN then ⟨true, some Tok.UNCLOSED_SPAN, dl, ds, q.2⟩
    else ⟨false, none, dl, ds, q.2⟩
  else ⟨false, none, dl, ds, l⟩

/-- `parse_backtick`. -/
def parse_backtick (s : Scanner) (l : TSLexer) (v : Tok → Bool) : Res :=
  let r := parse_leaf_delimiter s.code_span_delimiter_length s.inside_code_span v '`'
      Tok.CODE_SPAN_START Tok.CODE_SPAN_CLOSE l
  ⟨r.ret, r.sym,
   { s with code_span_delimiter_length := r.dl, inside_code_span := r.ds }, r.lex⟩

/-- `parse_dollar`. -/
def parse_dollar (s : Scanner) (l : TSLexer) (v : Tok → Bool) : Res :=
  let r := parse_leaf_delimiter s.latex_span_delimiter_length s.inside_latex_span v '$'
      Tok.LATEX_SPAN_START Tok.LATEX_SPAN_CLOSE l
  ⟨r.ret, r.sym,
   { s with latex_span_delimiter_length := r.dl, inside_latex_span := r.ds }, r.lex⟩

/-- `parse_single_quote`. -/
def parse_single_quote (s : Scanner) (l : TSLexer) (v : Tok → Bool) : Res :=
  let l := l.adv
  if 0 < s.inside_single_quote && v Tok.SINGLE_QUOTE_CLOSE then
    ⟨true, some Tok.SINGLE_QUOTE_CLOSE, { s with inside_single_quote := 0 }, l⟩
  else
    let l := l.markEnd
    if v Tok.SINGLE_QUOTE_CLOSE then
      ⟨true, some Tok.SINGLE_QUOTE_CLOSE, { s with inside_single_quote := 0 }, l⟩
    else if v Tok.SINGLE_QUOTE_OPEN && !is_lookahead_whitespace l then
      ⟨true, some Tok.SINGLE_QUOTE_OPEN, { s with inside_single_quote := 1 }, l⟩
    else ⟨false, none, s, l⟩

/-- `parse_double_quote`.  Note: unlike `parse_single_quote`, the open
branch has no whitespace-lookahead condition. -/
def parse_double_quote (s : Scanner) (l : TSLexer) (v : Tok → Bool) : Res :=
  let l := l.adv
  if 0 < s.inside_double_quote && v Tok.DOUBLE_QUOTE_CLOSE then
    ⟨true, some Tok.DOUBLE_QUOTE_CLOSE, { s with inside_double_quote := 0 }, l⟩
  else
    let l := l.markEnd
    if v Tok.DOUBLE_QUOTE_CLOSE then
      ⟨true, some Tok.DOUBLE_QUOTE_CLOSE, { s with inside_double_quote := 0 }, l⟩
    else if v Tok.DOUBLE_QUOTE_OPEN then
      ⟨true, some Tok.DOUBLE_QUOTE_OPEN, { s with inside_double_quote := 1 }, l⟩
    else ⟨false, none, s, l⟩

/-- `parse_caret`. -/
def parse_caret (s : Scanner) (l : TSLexer) (v : Tok → Bool) : Res :=
  let l := l.adv
  let l := l.markEnd
  if l.look '[' then ⟨false, none, s, l⟩
  else if 0 < s.inside_superscript && v Tok.SUPERSCRIPT_CLOSE then
    ⟨true, some Tok.SUPERSCRIPT_CLOSE, { s with inside_superscript := 0 }, l⟩
  else if v Tok.SUPERSCRIPT_CLOSE then
    ⟨true, some Tok.SUPERSCRIPT_CLOSE, { s with inside_superscript := 0 }, l⟩
  else if v Tok.SUPERSCRIPT_OPEN then
    ⟨true, some Tok.SUPERSCRIPT_OPEN, { s with inside_superscript := 1 }, l⟩
  else ⟨false, none, s, l⟩

/-- `parse_strikeout` (entered from `parse_tilde` having already advanced
over the first `~`; this function advances over the second). -/
def parse_strikeout (s : Scanner) (l : TSLexer) (v : Tok → Bool) : Res :=
  let l := l.adv
  if 0 < s.inside_strikeout && v Tok.STRIKEOUT_CLOSE then
    ⟨true, some Tok.STRIKEOUT_CLOSE, { s with inside_strikeout := 0 }, l⟩
  else
    let l := l.markEnd
    if v Tok.STRIKEOUT_CLOSE then
      ⟨true, some Tok.STRIKEOUT_CLOSE, { s with inside_strikeout := 0 }, l⟩
    else if v Tok.STRIKEOUT_OPEN then
      ⟨true, some Tok.STRIKEOUT_OPEN, { s with inside_strikeout := 1 }, l⟩
    else ⟨false, none, s, l⟩

/-- `parse_tilde`. -/
def parse_tilde (s : Scanner) (l : TSLexer) (v : Tok → Bool) : Res :=
  let l := l.adv
  if l.look '~' then parse_strikeout s l v
  else if 0 < s.inside_subscript && v Tok.SUBSCRIPT_CLOSE then
    ⟨true, some Tok.SUBSCRIPT_CLOSE, { s with inside_subscript := 0 }, l⟩
  else if v Tok.SUBSCRIPT_CLOSE then
    ⟨true, some Tok.SUBSCRIPT_CLOSE, { s with inside_subscript := 0 }, l⟩
  else if v Tok.SUBSCRIPT_OPEN then
    ⟨true, some Tok.SUBSCRIPT_OPEN, { s with inside_subscript := 1 }, l⟩
  else ⟨false, none, s, l⟩

/-- `parse_star` (inline scanner). -/
def parse_star (s : Scanner) (l : TSLexer) (v : Tok → Bool) : Res :=
  let l := l.adv
  if l.look '*' then
    let l := l.adv
    if v Tok.STRONG_EMPHASIS_CLOSE_STAR then
      ⟨true, some Tok.STRONG_EMPHASIS_CLOSE_STAR, s, l⟩
    else if v Tok.STRONG_EMPHASIS_OPEN_STAR then
      ⟨true, some Tok.STRONG_EMPHASIS_OPEN_STAR, s, l⟩
    else ⟨false, none, s, l⟩
  else if v Tok.EMPHASIS_CLOSE_STAR then ⟨true, some Tok.EMPHASIS_CLOSE_STAR, s, l⟩
  else if v Tok.EMPHASIS_OPEN_STAR then ⟨true, some Tok.EMPHASIS_OPEN_STAR, s, l⟩
  else ⟨false, none, s, l⟩

/-- `parse_underscore`. -/
def parse_underscore (s : Scanner) (l : TSLexer) (v : Tok → Bool) : Res :=
  let l := l.adv
  if l.look '_' then
    let l := l.adv
    if v Tok.STRONG_EMPHASIS_CLOSE_UNDERSCORE then
      ⟨true, some Tok.STRONG_EMPHASIS_CLOSE_UNDERSCORE, s, l⟩
    else if v Tok.STRONG_EMPHASIS_OPEN_UNDERSCORE then
      ⟨true, some Tok.STRONG_EMPHASIS_OPEN_UNDERSCORE, s, l⟩
    else ⟨false, none, s, l⟩
  else if v Tok.EMPHASIS_CLOSE_UNDERSCORE then
    ⟨true, some Tok.EMPHASIS_CLOSE_UNDERSCORE, s, l⟩
  else if v Tok.EMPHASIS_OPEN_UNDERSCORE then
    ⟨true, some Tok.EMPHASIS_OPEN_UNDERSCORE, s, l⟩
  else ⟨false, none, s, l⟩

/-- `parse_cite_author_in_text` (inline scanner). -/
def parse_cite_author_in_text (s : Scanner) (l : TSLexer) (v : Tok → Bool) : Res :=
  let l := l.adv
  if l.look '{' && v Tok.CITE_AUTHOR_IN_TEXT_WITH_OPEN_BRACKET then
    ⟨true, some Tok.CITE_AUTHOR_IN_TEXT_WITH_OPEN_BRACKET, s, l.adv.markEnd⟩
  else if v Tok.CITE_AUTHOR_IN_TEXT then
    ⟨true, some Tok.CITE_AUTHOR_IN_TEXT, s, l.markEnd⟩
  else ⟨false, none, s, l⟩

/-- `parse_cite_suppress_author` (inline scanner). -/
def parse_cite_suppress_author (s : Scanner) (l : TSLexer) (v : Tok → Bool) : Res :=
  let l := l.adv
  if l.look '@' then
    let l := l.adv
    if l.look '{' && v Tok.CITE_SUPPRESS_AUTHOR_WITH_OPEN_BRACKET then
      ⟨true, some Tok.CITE_SUPPRESS_AUTHOR_WITH_OPEN_BRACKET, s, l.adv.markEnd⟩
    else if v Tok.CITE_SUPPRESS_AUTHOR then
      ⟨true, some Tok.CITE_SUPPRESS_AUTHOR, s, l.markEnd⟩
    else ⟨false, none, s, l⟩
  else ⟨false, none, s, l⟩

/-- `parse_shortcode_open` (inline scanner): increments
`inside_shortcode` (a `uint8_t`) on success. -/
def parse_shortcode_open (s : Scanner) (l : TSLexer) (v : Tok → Bool) : Res :=
  let l := l.adv
  if !(l.look '{') then ⟨false, none, s, l⟩
  else
    let l := l.adv
    if l.look '<' && v Tok.SHORTCODE_OPEN then
      ⟨true, some Tok.SHORTCODE_OPEN,
       { s with inside_shortcode := u8 (s.inside_shortcode + 1) }, l.adv.markEnd⟩
    else if l.look '{' then
      let l := l.adv
      if l.look '<' && v Tok.SHORTCODE_OPEN_ESCAPED then
        ⟨true, some Tok.SHORTCODE_OPEN_ESCAPED,
         { s with inside_shortcode := u8 (s.inside_shortcode + 1) }, l.adv.markEnd⟩
      else ⟨false, none, s, l⟩
    else ⟨false, none, s, l⟩

/-- `parse_shortcode_close` (inline scanner): decrements
`inside_shortcode` (a `uint8_t`, with no zero check, hence modular) on
success. -/
def parse_shortcode_close (s : Scanner) (l : TSLexer) (v : Tok → Bool) : Res :=
  let l := l.adv
  if !(l.look '}') then ⟨false, none, s, l⟩
  else
    let l := l.adv
    if !(l.look '}') then ⟨false, none, s, l⟩
    else
      let l := l.adv
      if l.look '}' && v Tok.SHORTCODE_CLOSE_ESCAPED then
        ⟨true, some Tok.SHORTCODE_CLOSE_ESCAPED,
         { s with inside_shortcode := u8 (s.inside_shortcode + 255) }, l.adv.markEnd⟩
      else if v Tok.SHORTCODE_CLOSE then
        ⟨true, some Tok.SHORTCODE_CLOSE,
         { s with inside_shortcode := u8 (s.inside_shortcode + 255) }, l.markEnd⟩
      else ⟨false, none, s, l⟩

/-- `is_identifier_start`. -/
def is_identifier_start (c : Char) : Bool :=
  ('a' ≤ c && c ≤ 'z') || ('A' ≤ c && c ≤ 'Z') || c == '_'

/-- `is_identifier_char`. -/
def is_identifier_char (c : Char) : Bool :=
  ('a' ≤ c && c ≤ 'z') || ('A' ≤ c && c ≤ 'Z') ||
  ('0' ≤ c && c ≤ '9') || c == '_' || c == '-'

/-- Skip characters satisfying `p` by plain `lexer->advance`. -/
def skipWhile (fuel : Nat) (p : Char → Bool) (l : TSLexer) : TSLexer :=
  match fuel with
  | 0 => l
  | fuel + 1 => if TSLexer.lookIs l p then skipWhile fuel p l.adv else l

/-- `parse_key_name_and_equals`. -/
def parse_key_name_and_equals (s : Scanner) (l : TSLexer) (v : Tok → Bool) : Res :=
  if !(v Tok.KEY_NAME_AND_EQUALS) then ⟨false, none, s, l⟩
  else if !(TSLexer.lookIs l is_identifier_start) then ⟨false, none, s, l⟩
  else
    let l := l.adv
    let l := skipWhile (l.input.length + 1) is_identifier_char l
    let l := skipWhile (l.input.length + 1) (fun c => c == ' ' || c == '\t') l
    if !(l.look '=') then ⟨false, none, s, l⟩
    else ⟨true, some Tok.KEY_NAME_AND_EQUALS, s, l.adv.markEnd⟩

/-- The `<!-- ... -->` consumption loop of `parse_html_comment`,
returning the final lexer (both exits of the loop emit the token after a
`mark_end`). -/
def html_comment_loop (fuel : Nat) (l : TSLexer) : TSLexer :=
  match fuel with
  | 0 => l.markEnd
  | fuel + 1 =>
    if !l.eof then
      if l.look '-' then
        let l := l.adv
        if l.look '-' then
          let l := l.adv
          if l.look '>' then l.adv.markEnd
          else html_comment_loop fuel l
        else html_comment_loop fuel l
      else html_comment_loop fuel l.adv
    else l.markEnd

/-- `parse_html_comment` (inline scanner). -/
def parse_html_comment (s : Scanner) (l : TSLexer) (v : Tok → Bool) : Res :=
  if !(v Tok.HTML_COMMENT) then ⟨false, none, s, l⟩
  else if !(l.look '<') then ⟨false, none, s, l⟩
  else
    let l := l.adv
    if !(l.look '!') then ⟨false, none, s, l⟩
    else
      let l := l.adv
      if !(l.look '-') then ⟨false, none, s, l⟩
      else
        let l := l.adv
        if !(l.look '-') then ⟨false, none, s, l⟩
        else
          ⟨true, some Tok.HTML_COMMENT, s, html_comment_loop (l.input.length + 1) l.adv⟩

/-- The markdown-inline `scan`. -/
def scan (s : Scanner) (l : TSLexer) (v : Tok → Bool) : Res :=
  if v Tok.TRIGGER_ERROR then ⟨true, some Tok.ERROR, s, l⟩
  else if l.look '<' then parse_html_comment s l v
  else if l.look '{' then parse_shortcode_open s l v
  else if l.look '>' then parse_shortcode_close s l v
  else if l.look '@' then parse_cite_author_in_text s l v
  else if l.look '-' then parse_cite_suppress_author s l v
  else if l.look '^' then parse_caret s l v
  else if l.look '`' then parse_backtick s l v
  else if l.look '$' then parse_dollar s l v
  else if l.look '*' then parse_star s l v
  else if l.look '_' then parse_underscore s l v
  else if l.look '~' then parse_tilde s l v
  else if s.inside_shortcode == 0 &&
      (v Tok.LAST_TOKEN_WHITESPACE || !(s.inside_single_quote == 0)) &&
      l.look '\'' then
    parse_single_quote s l v
  else if s.inside_shortcode == 0 &&
      (v Tok.LAST_TOKEN_WHITESPACE || !(s.inside_double_quote == 0)) &&
      l.look '"' then
    parse_double_quote s l v
  else if !(s.inside_shortcode == 0) && TSLexer.lookIs l is_identifier_start then
    parse_key_name_and_equals s l v
  else ⟨false, none, s, l⟩

end MDI

namespace QMD

/-! ## The unified block/inline markdown scanner
(`tree-sitter-qmd/tree-sitter-markdown/src/scanner.c`) -/

/-- The `TokenType` enum of the unified scanner, in declaration order. -/
inductive Tok where
  | LINE_ENDING
  | SOFT_LINE_ENDING
  | BLOCK_CLOSE
  | BLOCK_CONTINUATION
  | BLOCK_QUOTE_START
  | INDENTED_CHUNK_START
  | ATX_H1_MARKER
  | ATX_H2_MARKER
  | ATX_H3_MARKER
  | ATX_H4_MARKER
  | ATX_H5_MARKER
  | ATX_H6_MARKER
  | SETEXT_H1_UNDERLINE
  | SETEXT_H2_UNDERLINE
  | THEMATIC_BREAK
  | LIST_MARKER_MINUS
  | LIST_MARKER_PLUS
  | LIST_MARKER_STAR
  | LIST_MARKER_PARENTHESIS
  | LIST_MARKER_DOT
  | LIST_MARKER_MINUS_DONT_INTERRUPT
  | LIST_MARKER_PLUS_DONT_INTERRUPT
  | LIST_MARKER_STAR_DONT_INTERRUPT
  | LIST_MARKER_PARENTHESIS_DONT_INTERRUPT
  | LIST_MARKER_DOT_DONT_INTERRUPT
  | LIST_MARKER_EXAMPLE
  | LIST_MARKER_EXAMPLE_DONT_INTERRUPT
  | FENCED_CODE_BLOCK_START_BACKTICK
  | FENCED_CODE_BLOCK_START_TILDE
  | BLANK_LINE_START
  | FENCED_CODE_BLOCK_END_BACKTICK
  | FENCED_CODE_BLOCK_END_TILDE
  | CLOSE_BLOCK
  | NO_INDENTED_CHUNK
  | ERROR
  | TRIGGER_ERROR
  | TOKEN_EOF
  | MINUS_METADATA
  | PLUS_METADATA
  | PIPE_TABLE_START
  | PIPE_TABLE_LINE_ENDING
  | FENCED_DIV_START
  | FENCED_DIV_END
  | REF_ID_SPECIFIER
  | FENCED_DIV_NOTE_ID
  | DISPLAY_MATH_STATE_TRACK_MARKER
  | INLINE_MATH_STATE_TRACK_MARKER
  | CODE_SPAN_START
  | CODE_SPAN_CLOSE
  | LATEX_SPAN_START
  | LATEX_SPAN_CLOSE
  | HTML_COMMENT
  | RAW_SPECIFIER
  | AUTOLINK
  | LANGUAGE_SPECIFIER
  | KEY_SPECIFIER
  | NAKED_VALUE_SPECIFIER
  | HIGHLIGHT_SPAN_START
  | INSERT_SPAN_START
  | DELETE_SPAN_START
  | COMMENT_SPAN_START
  | SINGLE_QUOTE_OPEN
  | SINGLE_QUOTE_CLOSE
  | DOUBLE_QUOTE_OPEN
  | DOUBLE_QUOTE_CLOSE
  | SHORTCODE_OPEN_ESCAPED
  | SHORTCODE_CLOSE_ESCAPED
  | SHORTCODE_OPEN
  | SHORTCODE_CLOSE
  | CITE_AUTHOR_IN_TEXT_WITH_OPEN_BRACKET
  | CITE_SUPPRESS_AUTHOR_WITH_OPEN_BRACKET
  | CITE_AUTHOR_IN_TEXT
  | CITE_SUPPRESS_AUTHOR
deriving DecidableEq, Repr

/-- The `Block` enum, in declaration order (ordinals 0 to 20). -/
inductive Block where
  | BLOCK_QUOTE
  | INDENTED_CODE_BLOCK
  | LIST_ITEM
  | LIST_ITEM_1_INDENTATION
  | LIST_ITEM_2_INDENTATION
  | LIST_ITEM_3_INDENTATION
  | LIST_ITEM_4_INDENTATION
  | LIST_ITEM_5_INDENTATION
  | LIST_ITEM_6_INDENTATION
  | LIST_ITEM_7_INDENTATION
  | LIST_ITEM_8_INDENTATION
  | LIST_ITEM_9_INDENTATION
  | LIST_ITEM_10_INDENTATION
  | LIST_ITEM_11_INDENTATION
  | LIST_ITEM_12_INDENTATION
  | LIST_ITEM_13_INDENTATION
  | LIST_ITEM_14_INDENTATION
  | LIST_ITEM_MAX_INDENTATION
  | FENCED_CODE_BLOCK
  | ANONYMOUS
  | FENCED_DIV
deriving DecidableEq, Repr

/-- The C ordinal of a `Block` enum value. -/
def Block.toNat : Block → Nat
  | .BLOCK_QUOTE => 0
  | .INDENTED_CODE_BLOCK => 1
  | .LIST_ITEM => 2
  | .LIST_ITEM_1_INDENTATION => 3
  | .LIST_ITEM_2_INDENTATION => 4
  | .LIST_ITEM_3_INDENTATION => 5
  | .LIST_ITEM_4_INDENTATION => 6
  | .LIST_ITEM_5_INDENTATION => 7
  | .LIST_ITEM_6_INDENTATION => 8
  | .LIST_ITEM_7_INDENTATION => 9
  | .LIST_ITEM_8_INDENTATION => 10
  | .LIST_ITEM_9_INDENTATION => 11
  | .LIST_ITEM_10_INDENTATION => 12
  | .LIST_ITEM_11_INDENTATION => 13
  | .LIST_ITEM_12_INDENTATION => 14
  | .LIST_ITEM_13_INDENTATION => 15
  | .LIST_ITEM_14_INDENTATION => 16
  | .LIST_ITEM_MAX_INDENTATION => 17
  | .FENCED_CODE_BLOCK => 18
  | .ANONYMOUS => 19
  | .FENCED_DIV => 20

/-- Ordinal to `Block`.  An out-of-range value (a junk C enum value,
producible only by deserializing a buffer that `serialize` never wrote,
or by `(Block)(LIST_ITEM + n)` casts with huge `n`) is mapped to
`ANONYMOUS`. -/
def Block.ofOrdinal (n : Nat) : Block :=
  match n with
  | 0 => .BLOCK_QUOTE
  | 1 => .INDENTED_CODE_BLOCK
  | 2 => .LIST_ITEM
  | 3 => .LIST_ITEM_1_INDENTATION
  | 4 => .LIST_ITEM_2_INDENTATION
  | 5 => .LIST_ITEM_3_INDENTATION
  | 6 => .LIST_ITEM_4_INDENTATION
  | 7 => .LIST_ITEM_5_INDENTATION
  | 8 => .LIST_ITEM_6_INDENTATION
  | 9 => .LIST_ITEM_7_INDENTATION
  | 10 => .LIST_ITEM_8_INDENTATION
  | 11 => .LIST_ITEM_9_INDENTATION
  | 12 => .LIST_ITEM_10_INDENTATION
  | 13 => .LIST_ITEM_11_INDENTATION
  | 14 => .LIST_ITEM_12_INDENTATION
  | 15 => .LIST_ITEM_13_INDENTATION
  | 16 => .LIST_ITEM_14_INDENTATION
  | 17 => .LIST_ITEM_MAX_INDENTATION
  | 18 => .FENCED_CODE_BLOCK
  | 19 => .ANONYMOUS
  | 20 => .FENCED_DIV
  | _ => .ANONYMOUS

/-- `is_punctuation` (markdown-spec ASCII punctuation). -/
def is_punctuation (c : Char) : Bool :=
  ('!' ≤ c && c ≤ '/') || (':' ≤ c && c ≤ '@') ||
  ('[' ≤ c && c ≤ '`') || ('{' ≤ c && c ≤ '~')

/-- `list_item_indentation`: minimal content indentation of a list-item
block tag. -/
def list_item_indentation (b : Block) : Nat := u8 (b.toNat - Block.LIST_ITEM.toNat + 2)

/-- `display_math_paragraph_interrupt_symbols`: the fixed
paragraph-interrupt table used while inside display math (list markers do
not interrupt). -/
def display_math_paragraph_interrupt_symbols : Tok → Bool
  | .BLOCK_QUOTE_START => true
  | .ATX_H1_MARKER => true
  | .ATX_H2_MARKER => true
  | .ATX_H3_MARKER => true
  | .ATX_H4_MARKER => true
  | .ATX_H5_MARKER => true
  | .ATX_H6_MARKER => true
  | .SETEXT_H1_UNDERLINE => true
  | .SETEXT_H2_UNDERLINE => true
  | .THEMATIC_BREAK => true
  | .FENCED_CODE_BLOCK_START_BACKTICK => true
  | .FENCED_CODE_BLOCK_START_TILDE => true
  | .BLANK_LINE_START => true
  | .PIPE_TABLE_START => true
  | .FENCED_DIV_START => true
  | .FENCED_DIV_END => true
  | _ => false

/-- `paragraph_interrupt_symbols`: the fixed paragraph-interrupt table
used outside display math (list markers do interrupt). -/
def paragraph_interrupt_symbols : Tok → Bool
  | .BLOCK_QUOTE_START => true
  | .ATX_H1_MARKER => true
  | .ATX_H2_MARKER => true
  | .ATX_H3_MARKER => true
  | .ATX_H4_MARKER => true
  | .ATX_H5_MARKER => true
  | .ATX_H6_MARKER => true
  | .SETEXT_H1_UNDERLINE => true
  | .SETEXT_H2_UNDERLINE => true
  | .THEMATIC_BREAK => true
  | .LIST_MARKER_MINUS => true
  | .LIST_MARKER_PLUS => true
  | .LIST_MARKER_STAR => true
  | .LIST_MARKER_PARENTHESIS => true
  | .LIST_MARKER_DOT => true
  | .LIST_MARKER_EXAMPLE => true
  | .FENCED_CODE_BLOCK_START_BACKTICK => true
  | .FENCED_CODE_BLOCK_START_TILDE => true
  | .BLANK_LINE_START => true
  | .PIPE_TABLE_START => true
  | .FENCED_DIV_START => true
  | .FENCED_DIV_END => true
  | _ => false

/-- The four `STATE_*` bit flags of the `state` byte, as a record.  The
C code only ever sets/clears/toggles these four disjoint bits
(`0x01`, `0x02`, `0x10`, `0x20`), so the record is an exact model of the
reachable `state` bytes. -/
structure Flags where
  matching : Bool
  wasSoftLineBreak : Bool
  closeBlock : Bool
  inDisplayMath : Bool
deriving DecidableEq, Repr

/-- The `state` byte encoding the four flags
(`STATE_MATCHING = 0x01`, `STATE_WAS_SOFT_LINE_BREAK = 0x02`,
`STATE_CLOSE_BLOCK = 0x10`, `STATE_IN_DISPLAY_MATH = 0x20`). -/
def Flags.toByte (f : Flags) : Nat :=
  (if f.matching then 1 else 0) + (if f.wasSoftLineBreak then 2 else 0) +
  (if f.closeBlock then 16 else 0) + (if f.inDisplayMath then 32 else 0)

/-- Decode the four flag bits of a `state` byte. -/
def Flags.ofByte (n : Nat) : Flags :=
  ⟨n.testBit 0, n.testBit 1, n.testBit 4, n.testBit 5⟩

/-- The `Scanner` struct of the unified scanner.  `open_blocks` holds
the stack bottom-first (`items[0]` is the head of the list; the top of
the stack is the last element).  The `capacity` field of the C struct is
allocator bookkeeping with no observable behaviour and is omitted. -/
structure Scanner where
  own_size : Nat
  open_blocks : List Block
  state : Flags
  matched : Nat
  indentation : Nat
  column : Nat
  fenced_code_block_delimiter_length : Nat
  code_span_delimiter_length : Nat
  inside_code_span : Nat
  latex_span_delimiter_length : Nat
  inside_latex_span : Nat
  simulate : Bool
deriving DecidableEq, Repr

/-- `sizeof(Scanner)` on the reference LP64 platform: 4 (`own_size`) +
4 (padding) + 24 (`open_blocks` = two `size_t` and a pointer) + 9
(`uint8_t` fields) + 1 (`bool simulate`) + 6 (tail padding) = 48. -/
def sizeof_Scanner : Nat := 48

/-- `sizeof(Block)`: a plain C `enum`, 4 bytes on all reference
platforms. -/
def sizeof_Block : Nat := 4

/-- `can_push_block`: refuse pushes once
`sizeof(Scanner) + sizeof(Block) * open_blocks.size` reaches
`1024 * 3 / 4 = 768` bytes. -/
def can_push_block (s : Scanner) : Bool :=
  sizeof_Scanner + sizeof_Block * s.open_blocks.length < (1024 * 3) / 4

/-- `push_block` (the capacity-doubling realloc has no observable
effect). -/
def push_block (s : Scanner) (b : Block) : Scanner :=
  { s with open_blocks := s.open_blocks ++ [b] }

/-- `pop_block` (drops the top = last element). -/
def pop_block (s : Scanner) : Scanner :=
  { s with open_blocks := s.open_blocks.dropLast }

/-- The four little-endian bytes of one serialized `Block`
(`sizeof(Block) = 4`; ordinals are below 256, so the upper three bytes
are zero). -/
def blockBytes (b : Block) : List Nat :=
  [b.toNat % 256, b.toNat / 256 % 256, b.toNat / 65536 % 256, b.toNat / 16777216 % 256]

/-- `serialize`: 4 zero reserved bytes (`sizeof(unsigned)`), the nine
`uint8_t` fields in order, then the `memcpy` of the open-block array
(4 bytes per block). -/
def serialize (s : Scanner) : List Nat :=
  [0, 0, 0, 0] ++
  [u8 s.state.toByte, u8 s.matched, u8 s.indentation, u8 s.column,
   u8 s.fenced_code_block_delimiter_length, u8 s.code_span_delimiter_length,
   u8 s.inside_code_span, u8 s.latex_span_delimiter_length, u8 s.inside_latex_span] ++
  (s.open_blocks.map blockBytes).flatten

/-- Read back `count` serialized blocks (4 bytes each, little-endian). -/
def readBlocks (count : Nat) (bs : List Nat) : List Block :=
  match count with
  | 0 => []
  | count + 1 =>
    Block.ofOrdinal (bs.getD 0 0 + 256 * bs.getD 1 0 + 65536 * bs.getD 2 0 +
      16777216 * bs.getD 3 0) :: readBlocks count (bs.drop 4)

/-- `deserialize`: zero the state, then (for a non-empty buffer) skip
the 4 reserved bytes, read the nine field bytes, and `memcpy` the
remaining `(length - 13) / sizeof(Block)` blocks back.  (`deserialize`
does not touch the C `simulate` field; the driver clears it before each
scan, so it is modelled as `false` here.) -/
def deserialize (buffer : List Nat) : Scanner :=
  if 0 < buffer.length then
    { own_size := buffer.length
      open_blocks := readBlocks ((buffer.length - 13) / 4) (buffer.drop 13)
      state := Flags.ofByte (buffer.getD 4 0)
      matched := buffer.getD 5 0
      indentation := buffer.getD 6 0
      column := buffer.getD 7 0
      fenced_code_block_delimiter_length := buffer.getD 8 0
      code_span_delimiter_length := buffer.getD 9 0
      inside_code_span := buffer.getD 10 0
      latex_span_delimiter_length := buffer.getD 11 0
      inside_latex_span := buffer.getD 12 0
      simulate := false }
  else
    { own_size := 0, open_blocks := [], state := ⟨false, false, false, false⟩,
      matched := 0, indentation := 0, column := 0,
      fenced_code_block_delimiter_length := 0, code_span_delimiter_length := 0,
      inside_code_span := 0, latex_span_delimiter_length := 0,
      inside_latex_span := 0, simulate := false }

/-- `mark_end` over the `simulate` flag alone: commit the token end,
suppressed while simulating. -/
def mark_end_b (sim : Bool) (l : TSLexer) : TSLexer :=
  if !sim then l.markEnd else l

/-- `mark_end`: commit the token end, suppressed while simulating. -/
def mark_end (s : Scanner) (l : TSLexer) : TSLexer :=
  mark_end_b s.simulate l

/-- Column-level `advance`: returns the consumed width (a tab advances
to the next 4-column tab stop) and the new column.  The C expression
`4 - s->column` is evaluated with the invariant `column < 4` that the
code maintains (truncated subtraction here). -/
def advC (col : Nat) (l : TSLexer) : Nat × Nat × TSLexer :=
  if l.look '\t' then (4 - col, 0, l.adv)
  else (1, (col + 1) % 4, l.adv)

/-- `advance(s, lexer)`: the column-tracking advance on the full
scanner state. -/
def advance (s : Scanner) (l : TSLexer) : Nat × Scanner × TSLexer :=
  let (sz, col, l') := advC s.column l
  (sz, { s with column := col }, l')

/-- A `while (lookahead is ' ' or '\t') x += advance(s, lexer)` loop at
column level, returning the summed width. -/
def skipWs (fuel : Nat) (col : Nat) (l : TSLexer) : Nat × Nat × TSLexer :=
  match fuel with
  | 0 => (0, col, l)
  | fuel + 1 =>
    if l.look ' ' || l.look '\t' then
      let (sz, col', l') := advC col l
      let (rest, col'', l'') := skipWs fuel col' l'
      (sz + rest, col'', l'')
    else (0, col, l)

/-- A `while (lookahead == c) { advance(s, lexer); level++; }` loop at
column level, returning the raw run length. -/
def countRun (fuel : Nat) (c : Char) (col : Nat) (l : TSLexer) : Nat × Nat × TSLexer :=
  match fuel with
  | 0 => (0, col, l)
  | fuel + 1 =>
    if l.look c then
      let (_, col', l') := advC col l
      let (n, col'', l'') := countRun fuel c col' l'
      (n + 1, col'', l'')
    else (0, col, l)

/-- The `while (s->indentation < limit) { ws ? indentation += advance :
break }` loops of `match`. -/
def indLoop (fuel : Nat) (limit : Nat) (ind col : Nat) (l : TSLexer) :
    Nat × Nat × TSLexer :=
  match fuel with
  | 0 => (ind, col, l)
  | fuel + 1 =>
    if ind < limit then
      if l.look ' ' || l.look '\t' then
        let (sz, col', l') := advC col l
        indLoop fuel limit (u8 (ind + sz)) col' l'
      else (ind, col, l)
    else (ind, col, l)

/-- Whether a `Block` is one of the `LIST_ITEM*` tags. -/
def Block.isListItem (b : Block) : Bool :=
  2 ≤ b.toNat && b.toNat ≤ 17

/-- `match(s, lexer, block)`: try to re-match one open block at a line
start.  Only `indentation`, `column` and the lexer are read or written,
so the function is stated over those. -/
def matchB (b : Block) (ind col : Nat) (l : TSLexer) : Bool × Nat × Nat × TSLexer :=
  match b with
  | .INDENTED_CODE_BLOCK =>
    let (ind, col, l) := indLoop (l.input.length + 1) 4 ind col l
    if 4 ≤ ind && !(l.look '\n') && !(l.look '\r') then (true, ind - 4, col, l)
    else (false, ind, col, l)
  | .FENCED_DIV => (true, ind, col, l)
  | .FENCED_CODE_BLOCK => (true, ind, col, l)
  | .ANONYMOUS => (true, ind, col, l)
  | .BLOCK_QUOTE =>
    let (sz, col, l) := skipWs (l.input.length + 1) col l
    let ind := u8 (ind + sz)
    if l.look '>' then
      let (_, col, l) := advC col l
      if l.look ' ' || l.look '\t' then
        let (sz2, col, l) := advC col l
        (true, u8 (sz2 - 1), col, l)
      else (true, 0, col, l)
    else (false, ind, col, l)
  | b =>
    -- the sixteen LIST_ITEM* cases
    let limit := list_item_indentation b
    let (ind, col, l) := indLoop (l.input.length + 1) limit ind col l
    if limit ≤ ind then (true, ind - limit, col, l)
    else if l.look '\n' || l.look '\r' then (true, 0, col, l)
    else (false, ind, col, l)

end QMD

namespace QMD

/-- Result of a unified-scanner scan or parse step. -/
structure Res where
  ret : Bool
  sym : Option Tok
  s : Scanner
  lex : TSLexer
deriving DecidableEq, Repr

/-- Attach an unchanged scanner state to a lexer-only parse result. -/
def liftLex (r : Bool × Option Tok × TSLexer) (s : Scanner) : Res :=
  ⟨r.1, r.2.1, s, r.2.2⟩

/-- `error(lexer)`: emit the `ERROR` token. -/
def error (s : Scanner) (l : TSLexer) : Res := ⟨true, some Tok.ERROR, s, l⟩

/-- Count a run of `c` by plain `lexer->advance` (no column tracking),
returning the raw count. -/
def countRunPlain (fuel : Nat) (c : Char) (l : TSLexer) : Nat × TSLexer :=
  match fuel with
  | 0 => (0, l)
  | fuel + 1 =>
    if l.look c then
      let p := countRunPlain fuel c l.adv
      (p.1 + 1, p.2)
    else (0, l)

/-- Skip characters satisfying `p` by plain `lexer->advance` (with the
`!eof` guard the C loops carry). -/
def skipWhileP (fuel : Nat) (p : Char → Bool) (l : TSLexer) : TSLexer :=
  match fuel with
  | 0 => l
  | fuel + 1 =>
    if !l.eof && TSLexer.lookIs l p then skipWhileP fuel p l.adv else l

/-- `parse_fenced_div_marker`. -/
def parse_fenced_div_marker (s : Scanner) (l : TSLexer) (v : Tok → Bool) : Res :=
  let (lvl, col, l) := countRun (l.input.length + 1) ':' s.column l
  let s := { s with column := col }
  let level := u8 lvl
  let l := mark_end s l
  if level < 3 then ⟨false, none, s, l⟩
  else
    let (_, col, l) := skipWs (l.input.length + 1) s.column l
    let s := { s with column := col }
    if (l.eof || l.look '\n' || l.look '\r') && v Tok.FENCED_DIV_END then
      ⟨true, some Tok.FENCED_DIV_END, s, l⟩
    else if !l.eof && v Tok.FENCED_DIV_START then
      if !s.simulate then
        if !can_push_block s then error s l
        else ⟨true, some Tok.FENCED_DIV_START, push_block s Block.FENCED_DIV, l⟩
      else ⟨true, some Tok.FENCED_DIV_START, s, l⟩
    else ⟨false, none, s, l⟩

/-- The info-string scan for backticks inside `parse_fenced_code_block`:
stops at a backtick (reporting it), a line end, or end of input. -/
def infoStringScan (fuel : Nat) (col : Nat) (l : TSLexer) : Bool × Nat × TSLexer :=
  match fuel with
  | 0 => (false, col, l)
  | fuel + 1 =>
    if !(l.look '\n') && !(l.look '\r') && !l.eof then
      if l.look '`' then (true, col, l)
      else
        let (_, col', l') := advC col l
        infoStringScan fuel col' l'
    else (false, col, l)

/-- The fence-open attempt at the end of `parse_fenced_code_block`. -/
def fcb_start (c : Char) (level : Nat) (s : Scanner) (l : TSLexer) (v : Tok → Bool) : Res :=
  let startValid := if c == '`' then v Tok.FENCED_CODE_BLOCK_START_BACKTICK
                    else v Tok.FENCED_CODE_BLOCK_START_TILDE
  if startValid && 3 ≤ level then
    let (hasBt, col, l) :=
      if c == '`' then infoStringScan (l.input.length + 1) s.column l
      else (false, s.column, l)
    let s := { s with column := col }
    if !hasBt then
      let t := if c == '`' then Tok.FENCED_CODE_BLOCK_START_BACKTICK
               else Tok.FENCED_CODE_BLOCK_START_TILDE
      if !s.simulate then
        if !can_push_block s then error s l
        else
          let s := push_block s Block.FENCED_CODE_BLOCK
          ⟨true, some t,
           { s with fenced_code_block_delimiter_length := level, indentation := 0 }, l⟩
      else
        ⟨true, some t,
         { s with fenced_code_block_delimiter_length := level, indentation := 0 }, l⟩
    else ⟨false, none, s, l⟩
  else ⟨false, none, s, l⟩

/-- `parse_fenced_code_block` (parameterised by the delimiter `` ` `` or
`~`). -/
def parse_fenced_code_block (c : Char) (s : Scanner) (l : TSLexer) (v : Tok → Bool) : Res :=
  let (lvl, col, l) := countRun (l.input.length + 1) c s.column l
  let s := { s with column := col }
  let level := u8 lvl
  let l := mark_end s l
  if v Tok.CODE_SPAN_START && c == '`' && level < 3 then
    ⟨true, some Tok.CODE_SPAN_START,
     { s with code_span_delimiter_length := level, inside_code_span := 1 }, l⟩
  else
    let closeValid := if c == '`' then v Tok.FENCED_CODE_BLOCK_END_BACKTICK
                      else v Tok.FENCED_CODE_BLOCK_END_TILDE
    if closeValid && s.indentation < 4 && s.fenced_code_block_delimiter_length ≤ level then
      let (_, col, l) := skipWs (l.input.length + 1) s.column l
      let s := { s with column := col }
      if l.look '\n' || l.look '\r' then
        ⟨true, some (if c == '`' then Tok.FENCED_CODE_BLOCK_END_BACKTICK
                     else Tok.FENCED_CODE_BLOCK_END_TILDE),
         { s with fenced_code_block_delimiter_length := 0 }, l⟩
      else fcb_start c level s l v
    else fcb_start c level s l v

/-- The star/whitespace counting loop of `parse_star` (with its
conditional in-loop `mark_end`). -/
def starLoop (fuel : Nat) (starCount extra : Nat) (sim : Bool) (col : Nat) (l : TSLexer)
    (vstar : Bool) : Nat × Nat × Nat × TSLexer :=
  match fuel with
  | 0 => (starCount, extra, col, l)
  | fuel + 1 =>
    if l.look '*' then
      let l := if starCount == 1 && 1 ≤ extra && vstar then mark_end_b sim l else l
      let (_, col, l) := advC col l
      starLoop fuel (starCount + 1) extra sim col l vstar
    else if l.look ' ' || l.look '\t' then
      let (sz, col, l) := advC col l
      if starCount == 1 then starLoop fuel starCount (u8 (extra + sz)) sim col l vstar
      else starLoop fuel starCount extra sim col l vstar
    else (starCount, extra, col, l)

/-- `parse_star`. -/
def parse_star (s : Scanner) (l : TSLexer) (v : Tok → Bool) : Res :=
  let (_, s, l) := advance s l
  let l := mark_end s l
  let (starCount, extra0, col, l) :=
    starLoop (l.input.length + 1) 1 0 s.simulate s.column l (v Tok.LIST_MARKER_STAR)
  let s := { s with column := col }
  let lineEnd := l.look '\n' || l.look '\r'
  let extra := if starCount == 1 && lineEnd then 1 else extra0
  let dont := if starCount == 1 && lineEnd then s.matched == s.open_blocks.length
              else false
  let thematic := 3 ≤ starCount && lineEnd
  let lms := 1 ≤ starCount && 1 ≤ extra
  if v Tok.THEMATIC_BREAK && thematic && s.indentation < 4 then
    ⟨true, some Tok.THEMATIC_BREAK, { s with indentation := 0 }, mark_end s l⟩
  else if (if dont then v Tok.LIST_MARKER_STAR_DONT_INTERRUPT
           else v Tok.LIST_MARKER_STAR) && lms then
    let l := if starCount == 1 then mark_end s l else l
    let extra := extra - 1
    let (extra, s) :=
      if extra ≤ 3 then (u8 (extra + s.indentation), { s with indentation := 0 })
      else (s.indentation, { s with indentation := extra })
    let t := if dont then Tok.LIST_MARKER_STAR_DONT_INTERRUPT else Tok.LIST_MARKER_STAR
    if !s.simulate then
      if !can_push_block s then error s l
      else ⟨true, some t, push_block s (Block.ofOrdinal (Block.LIST_ITEM.toNat + extra)), l⟩
    else ⟨true, some t, s, l⟩
  else ⟨false, none, s, l⟩

/-- The underscore/whitespace loop of `parse_thematic_break_underscore`. -/
def underscoreLoop (fuel : Nat) (cnt : Nat) (col : Nat) (l : TSLexer) :
    Nat × Nat × TSLexer :=
  match fuel with
  | 0 => (cnt, col, l)
  | fuel + 1 =>
    if l.look '_' then
      let (_, col, l) := advC col l
      underscoreLoop fuel (cnt + 1) col l
    else if l.look ' ' || l.look '\t' then
      let (_, col, l) := advC col l
      underscoreLoop fuel cnt col l
    else (cnt, col, l)

/-- `parse_thematic_break_underscore`. -/
def parse_thematic_break_underscore (s : Scanner) (l : TSLexer) (v : Tok → Bool) : Res :=
  let (_, s, l) := advance s l
  let l := mark_end s l
  let (cnt, col, l) := underscoreLoop (l.input.length + 1) 1 s.column l
  let s := { s with column := col }
  if 3 ≤ cnt && (l.look '\n' || l.look '\r') && v Tok.THEMATIC_BREAK then
    ⟨true, some Tok.THEMATIC_BREAK, { s with indentation := 0 }, mark_end s l⟩
  else ⟨false, none, s, l⟩

/-- `parse_block_quote`. -/
def parse_block_quote (s : Scanner) (l : TSLexer) (v : Tok → Bool) : Res :=
  if v Tok.BLOCK_QUOTE_START then
    let (_, s, l) := advance s l
    let s := { s with indentation := 0 }
    let (s, l) :=
      if l.look ' ' || l.look '\t' then
        let (sz, s, l) := advance s l
        ({ s with indentation := u8 (s.indentation + (sz - 1)) }, l)
      else (s, l)
    if !s.simulate then
      if !can_push_block s then error s l
      else ⟨true, some Tok.BLOCK_QUOTE_START, push_block s Block.BLOCK_QUOTE, l⟩
    else ⟨true, some Tok.BLOCK_QUOTE_START, s, l⟩
  else ⟨false, none, s, l⟩

/-- The `#`-counting loop of `parse_atx_heading` (stops once the level
exceeds 6). -/
def atxLoop (fuel : Nat) (level : Nat) (col : Nat) (l : TSLexer) :
    Nat × Nat × TSLexer :=
  match fuel with
  | 0 => (level, col, l)
  | fuel + 1 =>
    if l.look '#' && level ≤ 6 then
      let (_, col, l) := advC col l
      atxLoop fuel (level + 1) col l
    else (level, col, l)

/-- `ATX_H1_MARKER + (level - 1)`.  `scan` dispatches to
`parse_atx_heading` only on a `#` lookahead, so `level` is between 1 and
6 when this is used. -/
def atx_marker (level : Nat) : Tok :=
  match level with
  | 2 => Tok.ATX_H2_MARKER
  | 3 => Tok.ATX_H3_MARKER
  | 4 => Tok.ATX_H4_MARKER
  | 5 => Tok.ATX_H5_MARKER
  | 6 => Tok.ATX_H6_MARKER
  | _ => Tok.ATX_H1_MARKER

/-- `parse_atx_heading`. -/
def parse_atx_heading (s : Scanner) (l : TSLexer) (v : Tok → Bool) : Res :=
  if v Tok.ATX_H1_MARKER && s.indentation ≤ 3 then
    let l := mark_end s l
    let (level, col, l) := atxLoop (l.input.length + 1) 0 s.column l
    let s := { s with column := col }
    if level ≤ 6 && (l.look ' ' || l.look '\t' || l.look '\n' || l.look '\r') then
      ⟨true, some (atx_marker level), { s with indentation := 0 }, mark_end s l⟩
    else ⟨false, none, s, l⟩
  else ⟨false, none, s, l⟩

/-- `parse_setext_underline`. -/
def parse_setext_underline (s : Scanner) (l : TSLexer) (v : Tok → Bool) : Res :=
  if v Tok.SETEXT_H1_UNDERLINE && s.matched == s.open_blocks.length then
    let l := mark_end s l
    let (_, col, l) := countRun (l.input.length + 1) '=' s.column l
    let (_, col, l) := skipWs (l.input.length + 1) col l
    let s := { s with column := col }
    if l.look '\n' || l.look '\r' then
      ⟨true, some Tok.SETEXT_H1_UNDERLINE, s, mark_end s l⟩
    else ⟨false, none, s, l⟩
  else ⟨false, none, s, l⟩

/-- Consume the rest of a line (`while lookahead not a terminator and
not eof`). -/
def consumeRestOfLine (fuel : Nat) (col : Nat) (l : TSLexer) : Nat × TSLexer :=
  match fuel with
  | 0 => (col, l)
  | fuel + 1 =>
    if !(l.look '\n') && !(l.look '\r') && !l.eof then
      let (_, col', l') := advC col l
      consumeRestOfLine fuel col' l'
    else (col, l)

/-- The `if ('\r') { advance; if ('\n') advance; } else { advance; }`
line-terminator step used by the metadata loops. -/
def advNewline (col : Nat) (l : TSLexer) : Nat × TSLexer :=
  if l.look '\r' then
    let (_, col, l) := advC col l
    if l.look '\n' then
      let (_, col, l) := advC col l
      (col, l)
    else (col, l)
  else
    let (_, col, l) := advC col l
    (col, l)

/-- The line-by-line metadata scanning loop shared (up to its fence
character `c` and whether the first iteration starts by consuming a line
terminator) by `parse_minus` (`c = '-'`, already past the first
terminator) and `parse_plus` (`c = '+'`).  Returns whether a closing
fence line (exactly three `c`s, optional blanks, a terminator) was
found; on success the terminator is consumed and the end committed. -/
def metadataLoop (fuel : Nat) (c : Char) (advanceFirst : Bool) (sim : Bool) (col : Nat)
    (l : TSLexer) : Bool × Nat × TSLexer :=
  match fuel with
  | 0 => (false, col, l)
  | fuel + 1 =>
    let (col, l) := if advanceFirst then advNewline col l else (col, l)
    let (cnt, col, l) := countRun (l.input.length + 1) c col l
    if cnt == 3 then
      let (_, col, l) := skipWs (l.input.length + 1) col l
      if l.look '\r' || l.look '\n' then
        let (col, l) := advNewline col l
        (true, col, mark_end_b sim l)
      else
        let (col, l) := consumeRestOfLine (l.input.length + 1) col l
        if l.eof then (false, col, l)
        else metadataLoop fuel c true sim col l
    else
      let (col, l) := consumeRestOfLine (l.input.length + 1) col l
      if l.eof then (false, col, l)
      else metadataLoop fuel c true sim col l

/-- `parse_plus`. -/
def parse_plus (s : Scanner) (l : TSLexer) (v : Tok → Bool) : Res :=
  if s.indentation ≤ 3 &&
     (v Tok.LIST_MARKER_PLUS || v Tok.LIST_MARKER_PLUS_DONT_INTERRUPT ||
      v Tok.PLUS_METADATA) then
    let (_, s, l) := advance s l
    if v Tok.PLUS_METADATA && l.look '+' then
      let (_, s, l) := advance s l
      if !(l.look '+') then ⟨false, none, s, l⟩
      else
        let (_, s, l) := advance s l
        let (_, col, l) := skipWs (l.input.length + 1) s.column l
        let s := { s with column := col }
        if !(l.look '\n') && !(l.look '\r') then ⟨false, none, s, l⟩
        else
          let (found, col, l) := metadataLoop (l.input.length + 1) '+' true s.simulate s.column l
          let s := { s with column := col }
          if found then ⟨true, some Tok.PLUS_METADATA, s, l⟩
          else ⟨false, none, s, l⟩
    else
      let (extraSum, col, l) := skipWs (l.input.length + 1) s.column l
      let s := { s with column := col }
      let extra0 := u8 extraSum
      let lineEnd := l.look '\r' || l.look '\n'
      let extra := if lineEnd then 1 else extra0
      let dont := (if lineEnd then true else false) && s.matched == s.open_blocks.length
      if 1 ≤ extra &&
         (if dont then v Tok.LIST_MARKER_PLUS_DONT_INTERRUPT
          else v Tok.LIST_MARKER_PLUS) then
        let t := if dont then Tok.LIST_MARKER_PLUS_DONT_INTERRUPT else Tok.LIST_MARKER_PLUS
        let extra := extra - 1
        let (extra, s) :=
          if extra ≤ 3 then (u8 (extra + s.indentation), { s with indentation := 0 })
          else (s.indentation, { s with indentation := extra })
        if !s.simulate then
          if !can_push_block s then error s l
          else ⟨true, some t,
            push_block s (Block.ofOrdinal (Block.LIST_ITEM.toNat + extra)), l⟩
        else ⟨true, some t, s, l⟩
      else ⟨false, none, s, l⟩
  else ⟨false, none, s, l⟩

/-- The digit-counting loop of `parse_ordered_list_marker`. -/
def digitLoop (fuel : Nat) (digits : Nat) (dont : Bool) (col : Nat) (l : TSLexer) :
    Nat × Bool × Nat × TSLexer :=
  match fuel with
  | 0 => (digits, dont, col, l)
  | fuel + 1 =>
    if TSLexer.lookIs l (fun c => '0' ≤ c && c ≤ '9') then
      let (_, col, l) := advC col l
      digitLoop fuel (digits + 1) true col l
    else (digits, dont, col, l)

/-- `parse_ordered_list_marker`.  (As in the source, the emitted symbol
is always the plain `DOT`/`PARENTHESIS` variant even on the
don't-interrupt path; only the mask selection uses the variant.) -/
def parse_ordered_list_marker (s : Scanner) (l : TSLexer) (v : Tok → Bool) : Res :=
  if s.indentation ≤ 3 &&
     (v Tok.LIST_MARKER_PARENTHESIS || v Tok.LIST_MARKER_DOT ||
      v Tok.LIST_MARKER_PARENTHESIS_DONT_INTERRUPT ||
      v Tok.LIST_MARKER_DOT_DONT_INTERRUPT) then
    let dont0 := !(l.look '1')
    let (_, s, l) := advance s l
    let (digits, dont0, col, l) := digitLoop (l.input.length + 1) 1 dont0 s.column l
    let s := { s with column := col }
    if 1 ≤ digits && digits ≤ 9 then
      let (dot, paren, s, l) :=
        if l.look '.' then
          let (_, s, l) := advance s l
          (true, false, s, l)
        else if l.look ')' then
          let (_, s, l) := advance s l
          (false, true, s, l)
        else (false, false, s, l)
      if dot || paren then
        let (extraSum, col, l) := skipWs (l.input.length + 1) s.column l
        let s := { s with column := col }
        let extra0 := u8 extraSum
        let lineEnd := l.look '\n' || l.look '\r'
        let extra := if lineEnd then 1 else extra0
        let dont1 := if lineEnd then true else dont0
        let dont := dont1 && s.matched == s.open_blocks.length
        if 1 ≤ extra &&
           (if dot then
              (if dont then v Tok.LIST_MARKER_DOT_DONT_INTERRUPT else v Tok.LIST_MARKER_DOT)
            else
              (if dont then v Tok.LIST_MARKER_PARENTHESIS_DONT_INTERRUPT
               else v Tok.LIST_MARKER_PARENTHESIS)) then
          let t := if dot then Tok.LIST_MARKER_DOT else Tok.LIST_MARKER_PARENTHESIS
          let extra := extra - 1
          let (extra, s) :=
            if extra ≤ 3 then (u8 (extra + s.indentation), { s with indentation := 0 })
            else (s.indentation, { s with indentation := extra })
          if !s.simulate then
            if !can_push_block s then error s l
            else ⟨true, some t,
              push_block s (Block.ofOrdinal (Block.LIST_ITEM.toNat + extra + digits)), l⟩
          else ⟨true, some t, s, l⟩
        else ⟨false, none, s, l⟩
      else ⟨false, none, s, l⟩
    else ⟨false, none, s, l⟩
  else ⟨false, none, s, l⟩

/-- `parse_example_list_marker` (the `(@)` form; content-indentation
offset 3). -/
def parse_example_list_marker (s : Scanner) (l : TSLexer) (v : Tok → Bool) : Res :=
  if s.indentation ≤ 3 &&
     (v Tok.LIST_MARKER_EXAMPLE || v Tok.LIST_MARKER_EXAMPLE_DONT_INTERRUPT) then
    if !(l.look '(') then ⟨false, none, s, l⟩
    else
      let (_, s, l) := advance s l
      if !(l.look '@') then ⟨false, none, s, l⟩
      else
        let (_, s, l) := advance s l
        if !(l.look ')') then ⟨false, none, s, l⟩
        else
          let (_, s, l) := advance s l
          let (extraSum, col, l) := skipWs (l.input.length + 1) s.column l
          let s := { s with column := col }
          let extra0 := u8 extraSum
          let lineEnd := l.look '\n' || l.look '\r'
          let extra := if lineEnd then 1 else extra0
          let dont := (if lineEnd then true else false) && s.matched == s.open_blocks.length
          if 1 ≤ extra &&
             (if dont then v Tok.LIST_MARKER_EXAMPLE_DONT_INTERRUPT
              else v Tok.LIST_MARKER_EXAMPLE) then
            let t := if dont then Tok.LIST_MARKER_EXAMPLE_DONT_INTERRUPT
                     else Tok.LIST_MARKER_EXAMPLE
            let extra := extra - 1
            let (extra, s) :=
              if extra ≤ 3 then (u8 (extra + s.indentation), { s with indentation := 0 })
              else (s.indentation, { s with indentation := extra })
            if !s.simulate then
              if !can_push_block s then error s l
              else ⟨true, some t,
                push_block s (Block.ofOrdinal (Block.LIST_ITEM.toNat + extra + 3)), l⟩
            else ⟨true, some t, s, l⟩
          else ⟨false, none, s, l⟩
  else ⟨false, none, s, l⟩

/-- `parse_cite_suppress_author` (unified scanner; plain lexer
operations, direct `mark_end`). -/
def parse_cite_suppress_author (l : TSLexer) (v : Tok → Bool) :
    Bool × Option Tok × TSLexer :=
  if l.look '@' then
    let l := l.adv
    if l.look '{' && v Tok.CITE_SUPPRESS_AUTHOR_WITH_OPEN_BRACKET then
      (true, some Tok.CITE_SUPPRESS_AUTHOR_WITH_OPEN_BRACKET, l.adv.markEnd)
    else if v Tok.CITE_SUPPRESS_AUTHOR then
      (true, some Tok.CITE_SUPPRESS_AUTHOR, l.markEnd)
    else (false, none, l)
  else (false, none, l)

/-- The minus/whitespace counting loop of `parse_minus` (tracking
`whitespace_after_minus` / `minus_after_whitespace` and the conditional
in-loop `mark_end`). -/
def minusLoop (fuel : Nat) (cnt extra : Nat) (waw maw : Bool) (sim : Bool) (col : Nat)
    (l : TSLexer) : Nat × Nat × Bool × Bool × Nat × TSLexer :=
  match fuel with
  | 0 => (cnt, extra, waw, maw, col, l)
  | fuel + 1 =>
    if l.look '-' then
      let l := if cnt == 1 && 1 ≤ extra then mark_end_b sim l else l
      let (_, col, l) := advC col l
      minusLoop fuel (cnt + 1) extra waw waw sim col l
    else if l.look ' ' || l.look '\t' then
      let (sz, col, l) := advC col l
      let extra := if cnt == 1 then u8 (extra + sz) else extra
      minusLoop fuel cnt extra true maw sim col l
    else (cnt, extra, waw, maw, col, l)

/-- The tail of `parse_minus` after the setext/thematic/list chain: the
`MINUS_METADATA` peek-and-scan, the `CITE_SUPPRESS_AUTHOR` hand-off, and
the final `success` return.  `success` carries the symbol chosen by the
chain, if any. -/
def parse_minus_metadata (success : Option Tok) (cnt : Nat) (maw lineEnd : Bool)
    (s : Scanner) (l : TSLexer) (v : Tok → Bool) : Res :=
  if cnt == 3 && !maw && lineEnd && v Tok.MINUS_METADATA then
    -- peek past the opening fence terminator
    let (col, l) :=
      if l.look '\r' then
        let (_, col, l) := advC s.column l
        if l.look '\n' then
          let (_, col, l) := advC col l
          (col, l)
        else (col, l)
      else if l.look '\n' then
        let (_, col, l) := advC s.column l
        (col, l)
      else (s.column, l)
    let s := { s with column := col }
    if l.look '\r' || l.look '\n' then
      -- blank line after the opening fence: not metadata
      match success with
      | some t => ⟨true, some t, s, l⟩
      | none => ⟨false, none, s, l⟩
    else
      let (found, col, l) := metadataLoop (l.input.length + 1) '-' false s.simulate s.column l
      let s := { s with column := col }
      if found then ⟨true, some Tok.MINUS_METADATA, s, l⟩
      else
        match success with
        | some t => ⟨true, some t, s, l⟩
        | none => ⟨false, none, s, l⟩
  else if cnt == 1 && v Tok.CITE_SUPPRESS_AUTHOR_WITH_OPEN_BRACKET then
    liftLex (parse_cite_suppress_author l v) s
  else
    match success with
    | some t => ⟨true, some t, s, l⟩
    | none => ⟨false, none, s, l⟩

/-- `parse_minus`. -/
def parse_minus (s : Scanner) (l : TSLexer) (v : Tok → Bool) : Res :=
  if s.indentation ≤ 3 &&
     (v Tok.LIST_MARKER_MINUS || v Tok.LIST_MARKER_MINUS_DONT_INTERRUPT ||
      v Tok.SETEXT_H2_UNDERLINE || v Tok.THEMATIC_BREAK ||
      v Tok.CITE_SUPPRESS_AUTHOR_WITH_OPEN_BRACKET || v Tok.MINUS_METADATA) then
    let l := mark_end s l
    let (cnt, extra0, _waw, maw, col, l) :=
      minusLoop (l.input.length + 1) 0 0 false false s.simulate s.column l
    let s := { s with column := col }
    let lineEnd := l.look '\n' || l.look '\r'
    let extra := if cnt == 1 && lineEnd then 1 else extra0
    let dont := (if cnt == 1 && lineEnd then true else false) &&
                s.matched == s.open_blocks.length
    let thematic := 3 ≤ cnt && lineEnd
    let underline := 1 ≤ cnt && !maw && lineEnd && s.matched == s.open_blocks.length
    let lmm := 1 ≤ cnt && 1 ≤ extra
    if v Tok.SETEXT_H2_UNDERLINE && underline then
      let s := { s with indentation := 0 }
      parse_minus_metadata (some Tok.SETEXT_H2_UNDERLINE) cnt maw lineEnd s (mark_end s l) v
    else if v Tok.THEMATIC_BREAK && thematic then
      let s := { s with indentation := 0 }
      parse_minus_metadata (some Tok.THEMATIC_BREAK) cnt maw lineEnd s (mark_end s l) v
    else if (if dont then v Tok.LIST_MARKER_MINUS_DONT_INTERRUPT
             else v Tok.LIST_MARKER_MINUS) && lmm then
      let l := if cnt == 1 then mark_end s l else l
      let extra := extra - 1
      let (extra, s) :=
        if extra ≤ 3 then (u8 (extra + s.indentation), { s with indentation := 0 })
        else (s.indentation, { s with indentation := extra })
      let t := if dont then Tok.LIST_MARKER_MINUS_DONT_INTERRUPT else Tok.LIST_MARKER_MINUS
      if !s.simulate then
        if !can_push_block s then error s l
        else ⟨true, some t, push_block s (Block.ofOrdinal (Block.LIST_ITEM.toNat + extra)), l⟩
      else ⟨true, some t, s, l⟩
    else parse_minus_metadata none cnt maw lineEnd s l v
  else ⟨false, none, s, l⟩

end QMD

namespace QMD

/-- The header-cell counting loop of `parse_pipe_table` (split on `|`,
respecting `\`-escaped punctuation; tracks whether the line ends in a
pipe). -/
def pipeCellLoop (fuel : Nat) (cellCount : Nat) (endingPipe : Bool) (col : Nat)
    (l : TSLexer) : Nat × Bool × Nat × TSLexer :=
  match fuel with
  | 0 => (cellCount, endingPipe, col, l)
  | fuel + 1 =>
    if !(l.look '\r') && !(l.look '\n') && !l.eof then
      if l.look '|' then
        let (_, col, l) := advC col l
        pipeCellLoop fuel (cellCount + 1) true col l
      else
        let endingPipe := if !(l.look ' ') && !(l.look '\t') then false else endingPipe
        if l.look '\\' then
          let (_, col, l) := advC col l
          if TSLexer.lookIs l is_punctuation then
            let (_, col, l) := advC col l
            pipeCellLoop fuel cellCount endingPipe col l
          else pipeCellLoop fuel cellCount endingPipe col l
        else
          let (_, col, l) := advC col l
          pipeCellLoop fuel cellCount endingPipe col l
    else (cellCount, endingPipe, col, l)

/-- The open-block re-match loop of `parse_pipe_table` (a `uint8_t`
counter against `(uint8_t)open_blocks.size`; any failure makes the whole
parse decline). -/
def pipeMatchLoop (fuel : Nat) (blocks : List Block) (mt : Nat) (ind col : Nat)
    (l : TSLexer) : Bool × Nat × Nat × TSLexer :=
  match fuel with
  | 0 => (true, ind, col, l)
  | fuel + 1 =>
    if mt < u8 blocks.length then
      match blocks.get? mt with
      | some b =>
        let (ok, ind, col, l) := matchB b ind col l
        if ok then pipeMatchLoop fuel blocks (u8 (mt + 1)) ind col l
        else (false, ind, col, l)
      | none => (true, ind, col, l)
    else (true, ind, col, l)

/-- The delimiter-row checking loop of `parse_pipe_table`.  Returns the
delimiter cell count, or `none` for the declining exits. -/
def pipeDelimLoop (fuel : Nat) (delim : Nat) (col : Nat) (l : TSLexer) :
    Option Nat × Nat × TSLexer :=
  match fuel with
  | 0 => (none, col, l)
  | fuel + 1 =>
    let (_, col, l) := skipWs (l.input.length + 1) col l
    if l.look '|' then
      let (_, col, l) := advC col l
      pipeDelimLoop fuel (delim + 1) col l
    else
      let (bad, col, l) :=
        if l.look ':' then
          let (_, col, l) := advC col l
          (!(l.look '-'), col, l)
        else (false, col, l)
      if bad then (none, col, l)
      else
        let (mcnt, col, l) := countRun (l.input.length + 1) '-' col l
        let had := decide (0 < mcnt)
        let delim := if had then delim + 1 else delim
        let (bad2, col, l) :=
          if l.look ':' then
            if !had then (true, col, l)
            else
              let (_, col, l) := advC col l
              (false, col, l)
          else (false, col, l)
        if bad2 then (none, col, l)
        else
          let (_, col, l) := skipWs (l.input.length + 1) col l
          if l.look '|' then
            let delim := if !had then delim + 1 else delim
            let (_, col, l) := advC col l
            pipeDelimLoop fuel delim col l
          else if !(l.look '\r') && !(l.look '\n') then (none, col, l)
          else (some delim, col, l)

/-- The part of `parse_pipe_table` after the header line's terminator has
been consumed. -/
def pipe_table_after_newline (cellCount : Nat) (s : Scanner) (l : TSLexer) : Res :=
  let s := { s with indentation := 0, column := 0 }
  let (sz, col, l) := skipWs (l.input.length + 1) s.column l
  let s := { s with indentation := u8 (s.indentation + sz), column := col }
  let s := { s with simulate := true }
  let (ok, ind, col, l) := pipeMatchLoop (s.open_blocks.length + 1) s.open_blocks 0
      s.indentation s.column l
  let s := { s with indentation := ind, column := col }
  if !ok then ⟨false, none, s, l⟩
  else
    let (s, l) :=
      if l.look '|' then
        let (_, s, l) := advance s l
        (s, l)
      else (s, l)
    let (dOpt, col, l) := pipeDelimLoop (l.input.length + 1) 0 s.column l
    let s := { s with column := col }
    match dOpt with
    | none => ⟨false, none, s, l⟩
    | some d =>
      if cellCount ≠ d then ⟨false, none, s, l⟩
      else ⟨true, some Tok.PIPE_TABLE_START, s, l⟩

/-- `parse_pipe_table` (zero-width `PIPE_TABLE_START`; note that it sets
the `simulate` flag for the rest of the call, and that the C `empty`
variable is never written, so the emptiness test reduces to the cell
count). -/
def parse_pipe_table (s : Scanner) (l : TSLexer) : Res :=
  let l := mark_end s l
  let (startingPipe, s, l) :=
    if l.look '|' then
      let (_, s, l) := advance s l
      (true, s, l)
    else (false, s, l)
  let (cellCount, endingPipe, col, l) := pipeCellLoop (l.input.length + 1) 0 false s.column l
  let s := { s with column := col }
  if cellCount == 0 && !(startingPipe && endingPipe) then ⟨false, none, s, l⟩
  else
    let cellCount := if !endingPipe then cellCount + 1 else cellCount
    if l.look '\n' then
      let (_, s, l) := advance s l
      pipe_table_after_newline cellCount s l
    else if l.look '\r' then
      let (_, s, l) := advance s l
      if l.look '\n' then
        let (_, s, l) := advance s l
        pipe_table_after_newline cellCount s l
      else pipe_table_after_newline cellCount s l
    else ⟨false, none, s, l⟩

/-- The footnote-identifier loop (stops at space, tab, newline, `^`,
`[`, `]`).  The C loop has no end-of-input check (the real lexer's
lookahead sticks at `0` there, so the C code would spin); the model
stops at end of input. -/
def refIdLoop (fuel : Nat) (l : TSLexer) : TSLexer :=
  match fuel with
  | 0 => l
  | fuel + 1 =>
    if TSLexer.lookIs l (fun c =>
        !(c == ' ' || c == '\t' || c == '\n' || c == '^' || c == '[' || c == ']')) then
      refIdLoop fuel l.adv
    else l

/-- `parse_ref_id_specifier` (called from `parse_open_square_brace`
with the `[` already consumed; plain lexer operations). -/
def parse_ref_id_specifier (l : TSLexer) : Bool × Option Tok × TSLexer :=
  if !(l.look '^') then (false, none, l)
  else
    let l := refIdLoop (l.input.length + 1) l.adv
    if !(l.look ']') then (false, none, l)
    else
      let l := l.adv
      if !(l.look ':') then (false, none, l)
      else (true, some Tok.REF_ID_SPECIFIER, l.adv.markEnd)

/-- The identifier loop of `parse_fenced_div_note_id` (column-tracking
`advance`; same character set and missing end-of-input check as
`refIdLoop`). -/
def noteIdLoop (fuel : Nat) (col : Nat) (l : TSLexer) : Nat × TSLexer :=
  match fuel with
  | 0 => (col, l)
  | fuel + 1 =>
    if TSLexer.lookIs l (fun c =>
        !(c == ' ' || c == '\t' || c == '\n' || c == '^' || c == '[' || c == ']')) then
      let (_, col', l') := advC col l
      noteIdLoop fuel col' l'
    else (col, l)

/-- `parse_fenced_div_note_id` (precondition: lookahead is `^`; always
emits). -/
def parse_fenced_div_note_id (s : Scanner) (l : TSLexer) : Res :=
  let (_, col, l) := advC s.column l
  let (col, l) := noteIdLoop (l.input.length + 1) col l
  ⟨true, some Tok.FENCED_DIV_NOTE_ID, { s with column := col }, l.markEnd⟩

/-- The line-bounded closing-delimiter scan shared by the pipe-table
code-span and latex-span parsers. -/
def spanCloseScan (fuel : Nat) (c : Char) (level : Nat) (closeLevel : Nat) (l : TSLexer) :
    Nat × TSLexer :=
  match fuel with
  | 0 => (closeLevel, l)
  | fuel + 1 =>
    if !l.eof && !(l.look '\n') && !(l.look '\r') then
      if l.look c then spanCloseScan fuel c level (closeLevel + 1) l.adv
      else if closeLevel == level then (closeLevel, l)
      else spanCloseScan fuel c level 0 l.adv
    else (closeLevel, l)

/-- `parse_code_span` (unified scanner, for pipe-table cells; plain
lexer advances). -/
def parse_code_span (s : Scanner) (l : TSLexer) (v : Tok → Bool) : Res :=
  let (lvl, l) := countRunPlain (l.input.length + 1) '`' l
  let level := u8 lvl
  let l := mark_end s l
  if level == s.code_span_delimiter_length && v Tok.CODE_SPAN_CLOSE then
    ⟨true, some Tok.CODE_SPAN_CLOSE,
     { s with code_span_delimiter_length := 0, inside_code_span := 0 }, l⟩
  else if v Tok.CODE_SPAN_START then
    let (cl, l') := spanCloseScan (l.input.length + 1) '`' level 0 l
    if cl == level then
      ⟨true, some Tok.CODE_SPAN_START,
       { s with code_span_delimiter_length := level, inside_code_span := 1 }, l'⟩
    else ⟨false, none, s, l'⟩
  else ⟨false, none, s, l⟩

/-- `parse_latex_span` (unified scanner, for pipe-table cells). -/
def parse_latex_span (s : Scanner) (l : TSLexer) (v : Tok → Bool) : Res :=
  let (lvl, l) := countRunPlain (l.input.length + 1) '$' l
  let level := u8 lvl
  let l := mark_end s l
  if level == s.latex_span_delimiter_length && v Tok.LATEX_SPAN_CLOSE then
    ⟨true, some Tok.LATEX_SPAN_CLOSE,
     { s with latex_span_delimiter_length := 0, inside_latex_span := 0 }, l⟩
  else if v Tok.LATEX_SPAN_START then
    let (cl, l') := spanCloseScan (l.input.length + 1) '$' level 0 l
    if cl == level then
      ⟨true, some Tok.LATEX_SPAN_START,
       { s with latex_span_delimiter_length := level, inside_latex_span := 1 }, l'⟩
    else ⟨false, none, s, l'⟩
  else ⟨false, none, s, l⟩

/-- The `-->`-search loop of the unified scanner's `parse_html_comment`
(both exits commit and emit). -/
def htmlLoopB (fuel : Nat) (l : TSLexer) : TSLexer :=
  match fuel with
  | 0 => l.markEnd
  | fuel + 1 =>
    if !l.eof then
      if l.look '-' then
        let l := l.adv
        if l.look '-' then
          let l := l.adv
          if l.look '>' then l.adv.markEnd
          else htmlLoopB fuel l
        else htmlLoopB fuel l
      else htmlLoopB fuel l.adv
    else l.markEnd

/-- `parse_html_comment` (unified scanner; entered from
`parse_open_angle_brace` with the `<` already consumed). -/
def parse_html_comment (l : TSLexer) (v : Tok → Bool) : Bool × Option Tok × TSLexer :=
  if !(v Tok.HTML_COMMENT) then (false, none, l)
  else if !(l.look '!') then (false, none, l)
  else
    let l := l.adv
    if !(l.look '-') then (false, none, l)
    else
      let l := l.adv
      if !(l.look '-') then (false, none, l)
      else (true, some Tok.HTML_COMMENT, htmlLoopB (l.input.length + 1) l.adv)

/-- The scanning loop of `parse_open_angle_brace`: stop events are
space/tab/end-of-input (decline), `}` with `RAW_SPECIFIER` valid (emit
it, zero advance, committing before the `}`), and `>` with `AUTOLINK`
valid (consume the `>` and emit, without committing). -/
def angleLoop (fuel : Nat) (l : TSLexer) (v : Tok → Bool) : Bool × Option Tok × TSLexer :=
  match fuel with
  | 0 => (false, none, l)
  | fuel + 1 =>
    if !l.eof && !(l.look ' ') && !(l.look '\t') then
      if v Tok.RAW_SPECIFIER && l.look '}' then (true, some Tok.RAW_SPECIFIER, l.markEnd)
      else if v Tok.AUTOLINK && l.look '>' then (true, some Tok.AUTOLINK, l.adv)
      else angleLoop fuel l.adv v
    else (false, none, l)

/-- `parse_open_angle_brace`. -/
def parse_open_angle_brace (l : TSLexer) (v : Tok → Bool) : Bool × Option Tok × TSLexer :=
  if !(v Tok.AUTOLINK) && !(v Tok.RAW_SPECIFIER) && !(v Tok.HTML_COMMENT) then
    (false, none, l)
  else if !(l.look '<') then (false, none, l)
  else
    let l := l.adv
    if l.look '!' then parse_html_comment l v
    else angleLoop (l.input.length + 1) l v

/-- The scanning loop of `parse_raw_specifier` (only the `}` event
emits). -/
def rawLoop (fuel : Nat) (l : TSLexer) (v : Tok → Bool) : Bool × Option Tok × TSLexer :=
  match fuel with
  | 0 => (false, none, l)
  | fuel + 1 =>
    if !l.eof && !(l.look ' ') && !(l.look '\t') then
      if v Tok.RAW_SPECIFIER && l.look '}' then (true, some Tok.RAW_SPECIFIER, l.markEnd)
      else rawLoop fuel l.adv v
    else (false, none, l)

/-- `parse_raw_specifier` (entered on an `=` lookahead). -/
def parse_raw_specifier (l : TSLexer) (v : Tok → Bool) : Bool × Option Tok × TSLexer :=
  if !(v Tok.RAW_SPECIFIER) then (false, none, l)
  else if !(l.look '=') then (false, none, l)
  else rawLoop (l.input.length + 1) (l.adv) v

/-- Identifier-continuation characters of `parse_language_specifier`. -/
def isLangIdentChar (c : Char) : Bool :=
  ('A' ≤ c && c ≤ 'Z') || ('a' ≤ c && c ≤ 'z') || ('0' ≤ c && c ≤ '9') ||
  c == '_' || c == '-'

/-- The `do … while (!eof)` body of `parse_language_specifier`; the
loop exit (end of input after an identifier character) emits
`LANGUAGE_SPECIFIER`. -/
def langLoop (fuel : Nat) (l : TSLexer) (v : Tok → Bool) : Bool × Option Tok × TSLexer :=
  match fuel with
  | 0 => (true, some Tok.LANGUAGE_SPECIFIER, l)
  | fuel + 1 =>
    if TSLexer.lookIs l isLangIdentChar then
      let l := l.adv
      if !l.eof then langLoop fuel l v
      else (true, some Tok.LANGUAGE_SPECIFIER, l)
    else if l.look '}' then
      (true, some (if v Tok.NAKED_VALUE_SPECIFIER then Tok.NAKED_VALUE_SPECIFIER
                   else Tok.LANGUAGE_SPECIFIER), l.markEnd)
    else if l.look '=' then (true, some Tok.KEY_SPECIFIER, l.markEnd)
    else if l.look ' ' || l.look '\t' then
      let l := l.markEnd
      let l := skipWhileP (l.input.length + 1) (fun c => c == ' ' || c == '\t') l
      if l.eof then (true, some Tok.LANGUAGE_SPECIFIER, l)
      else if l.look '=' then (true, some Tok.KEY_SPECIFIER, l)
      else (true, some (if v Tok.NAKED_VALUE_SPECIFIER then Tok.NAKED_VALUE_SPECIFIER
                        else Tok.LANGUAGE_SPECIFIER), l)
    else (false, none, l)

/-- `parse_language_specifier`. -/
def parse_language_specifier (l : TSLexer) (v : Tok → Bool) : Bool × Option Tok × TSLexer :=
  if !(v Tok.LANGUAGE_SPECIFIER) && !(v Tok.KEY_SPECIFIER) &&
     !(v Tok.NAKED_VALUE_SPECIFIER) then (false, none, l)
  else if !(TSLexer.lookIs l (fun c => ('A' ≤ c && c ≤ 'Z') || ('a' ≤ c && c ≤ 'z'))) &&
          !(v Tok.NAKED_VALUE_SPECIFIER &&
            TSLexer.lookIs l (fun c => '0' ≤ c && c ≤ '9')) then
    (false, none, l)
  else langLoop (l.adv.input.length + 1) l.adv v

/-- `parse_open_square_brace` (footnote reference specifiers and the
four bracketed span-start markers; plain lexer operations). -/
def parse_open_square_brace (l : TSLexer) (v : Tok → Bool) : Bool × Option Tok × TSLexer :=
  if !(l.look '[') then (false, none, l)
  else
    let l := l.adv
    if v Tok.REF_ID_SPECIFIER && l.look '^' then parse_ref_id_specifier l
    else if v Tok.HIGHLIGHT_SPAN_START && l.look '!' then
      let l := l.adv
      if !(l.look '!') then (false, none, l)
      else
        let l := l.adv.markEnd
        let l := skipWhileP (l.input.length + 1) (fun c => c == ' ' || c == '\t') l
        (true, some Tok.HIGHLIGHT_SPAN_START, l)
    else if v Tok.INSERT_SPAN_START && l.look '+' then
      let l := l.adv
      if !(l.look '+') then (false, none, l)
      else
        let l := l.adv.markEnd
        let l := skipWhileP (l.input.length + 1) (fun c => c == ' ' || c == '\t') l
        (true, some Tok.INSERT_SPAN_START, l)
    else if v Tok.DELETE_SPAN_START && l.look '-' then
      let l := l.adv
      if !(l.look '-') then (false, none, l)
      else
        let l := l.adv.markEnd
        let l := skipWhileP (l.input.length + 1) (fun c => c == ' ' || c == '\t') l
        (true, some Tok.DELETE_SPAN_START, l)
    else if v Tok.COMMENT_SPAN_START && l.look '>' then
      let l := l.adv
      if !(l.look '>') then (false, none, l)
      else
        let l := l.adv.markEnd
        let l := skipWhileP (l.input.length + 1) (fun c => c == ' ' || c == '\t') l
        (true, some Tok.COMMENT_SPAN_START, l)
    else (false, none, l)

/-- `parse_single_quote` (unified scanner: close preferred over open,
no other conditions). -/
def parse_single_quote (l : TSLexer) (v : Tok → Bool) : Bool × Option Tok × TSLexer :=
  if !(l.look '\'') then (false, none, l)
  else
    let l := l.adv
    if v Tok.SINGLE_QUOTE_CLOSE then (true, some Tok.SINGLE_QUOTE_CLOSE, l.markEnd)
    else if v Tok.SINGLE_QUOTE_OPEN then (true, some Tok.SINGLE_QUOTE_OPEN, l.markEnd)
    else (false, none, l)

/-- `parse_double_quote` (unified scanner). -/
def parse_double_quote (l : TSLexer) (v : Tok → Bool) : Bool × Option Tok × TSLexer :=
  if !(l.look '"') then (false, none, l)
  else
    let l := l.adv
    if v Tok.DOUBLE_QUOTE_CLOSE then (true, some Tok.DOUBLE_QUOTE_CLOSE, l.markEnd)
    else if v Tok.DOUBLE_QUOTE_OPEN then (true, some Tok.DOUBLE_QUOTE_OPEN, l.markEnd)
    else (false, none, l)

/-- `parse_shortcode_close` (unified scanner; no nesting counter in this
scanner). -/
def parse_shortcode_close (l : TSLexer) (v : Tok → Bool) : Bool × Option Tok × TSLexer :=
  if !(l.look '>') then (false, none, l)
  else
    let l := l.adv
    if !(v Tok.SHORTCODE_CLOSE) && !(v Tok.SHORTCODE_CLOSE_ESCAPED) then (false, none, l)
    else if l.eof || !(l.look '}') then (false, none, l)
    else
      let l := l.adv
      if l.eof || !(l.look '}') then (false, none, l)
      else
        let l := l.adv
        if !l.eof && l.look '}' && v Tok.SHORTCODE_CLOSE_ESCAPED then
          (true, some Tok.SHORTCODE_CLOSE_ESCAPED, l.adv.markEnd)
        else if !(v Tok.SHORTCODE_CLOSE) then (false, none, l)
        else (true, some Tok.SHORTCODE_CLOSE, l.markEnd)

/-- `parse_shortcode_open` (unified scanner). -/
def parse_shortcode_open (l : TSLexer) (v : Tok → Bool) : Bool × Option Tok × TSLexer :=
  if !(l.look '{') then (false, none, l)
  else
    let l := l.adv
    if (!(v Tok.SHORTCODE_OPEN) && !(v Tok.SHORTCODE_OPEN_ESCAPED)) ||
       l.eof || !(l.look '{') then (false, none, l)
    else
      let l := l.adv
      if !l.eof && l.look '<' && v Tok.SHORTCODE_OPEN then
        (true, some Tok.SHORTCODE_OPEN, l.adv.markEnd)
      else if l.eof || !(l.look '{') || !(v Tok.SHORTCODE_OPEN_ESCAPED) then
        (false, none, l)
      else
        let l := l.adv
        if l.eof || !(l.look '<') || !(v Tok.SHORTCODE_OPEN) then (false, none, l)
        else (true, some Tok.SHORTCODE_OPEN_ESCAPED, l.adv.markEnd)

/-- `parse_cite_author_in_text` (unified scanner). -/
def parse_cite_author_in_text (l : TSLexer) (v : Tok → Bool) : Bool × Option Tok × TSLexer :=
  let l := l.adv
  if l.look '{' && v Tok.CITE_AUTHOR_IN_TEXT_WITH_OPEN_BRACKET then
    (true, some Tok.CITE_AUTHOR_IN_TEXT_WITH_OPEN_BRACKET, l.adv.markEnd)
  else if v Tok.CITE_AUTHOR_IN_TEXT then (true, some Tok.CITE_AUTHOR_IN_TEXT, l.markEnd)
  else (false, none, l)

end QMD

namespace QMD

/-- The matching-mode re-match loop of `scan` (with the `CLOSE_BLOCK`
break and the soft-line-break unmatching).  The counter and size
comparisons use the `uint8_t` casts of the source. -/
def matching_loop (fuel : Nat) (psucc : Bool) (s : Scanner) (l : TSLexer) :
    Bool × Scanner × TSLexer :=
  match fuel with
  | 0 => (psucc, s, l)
  | fuel + 1 =>
    if s.matched < u8 s.open_blocks.length then
      if s.matched == u8 s.open_blocks.length - 1 && s.state.closeBlock then
        (psucc,
         (if psucc then s else { s with state := { s.state with closeBlock := false } }), l)
      else
        match s.open_blocks.get? s.matched with
        | some b =>
          let (ok, ind, col, l) := matchB b s.indentation s.column l
          let s := { s with indentation := ind, column := col }
          if ok then matching_loop fuel true { s with matched := u8 (s.matched + 1) } l
          else
            (psucc,
             (if s.state.wasSoftLineBreak then
                { s with state := { s.state with matching := false } }
              else s), l)
        | none => (psucc, s, l)
    else (psucc, s, l)

/-- The in-line-break lookahead re-match loop (`one_will_be_matched`). -/
def sim_match_loop (fuel : Nat) (one : Bool) (s : Scanner) (l : TSLexer) :
    Bool × Scanner × TSLexer :=
  match fuel with
  | 0 => (one, s, l)
  | fuel + 1 =>
    if s.matched < u8 s.open_blocks.length then
      match s.open_blocks.get? s.matched with
      | some b =>
        let (ok, ind, col, l) := matchB b s.indentation s.column l
        let s := { s with indentation := ind, column := col }
        if ok then sim_match_loop fuel true { s with matched := u8 (s.matched + 1) } l
        else (one, s, l)
      | none => (one, s, l)
    else (one, s, l)

/-- The final `if (valid_symbols[LINE_ENDING])` block of `scan`. -/
def lineEndingPart (s : Scanner) (l : TSLexer) (v : Tok → Bool) : Res :=
  if v Tok.LINE_ENDING then
    let s := { s with matched := 0 }
    let s := { s with state := { s.state with
        matching := decide (0 < s.open_blocks.length),
        wasSoftLineBreak := false } }
    ⟨true, some Tok.LINE_ENDING, s, l⟩
  else ⟨false, none, s, l⟩

/-- The line-break handling block at the bottom of `scan`.  `inner` is
the recursive `scan` used for the next-line simulation.  (The source's
consecutive `s->matched = matched_temp; … s->matched = 0;` writes in the
simulation-declined branch collapse to the single zero write.) -/
def line_break (inner : Scanner → TSLexer → (Tok → Bool) → Res)
    (s : Scanner) (l : TSLexer) (v : Tok → Bool) : Res :=
  if (v Tok.LINE_ENDING || v Tok.SOFT_LINE_ENDING || v Tok.PIPE_TABLE_LINE_ENDING) &&
     (l.look '\n' || l.look '\r') then
    let (s, l) :=
      if l.look '\r' then
        let (_, s, l) := advance s l
        if l.look '\n' then
          let (_, s, l) := advance s l
          (s, l)
        else (s, l)
      else
        let (_, s, l) := advance s l
        (s, l)
    let s := { s with indentation := 0, column := 0 }
    if !s.state.closeBlock && (v Tok.SOFT_LINE_ENDING || v Tok.PIPE_TABLE_LINE_ENDING) then
      let l := l.markEnd
      let (sz, col, l) := skipWs (l.input.length + 1) s.column l
      let s := { s with indentation := u8 (s.indentation + sz), column := col }
      let s := { s with simulate := true }
      let matchedTemp := s.matched
      let s := { s with matched := 0 }
      let (one, s, l) := sim_match_loop (s.open_blocks.length + 1) false s l
      let allm := s.matched == s.open_blocks.length
      let symbols := if s.state.inDisplayMath then display_math_paragraph_interrupt_symbols
                     else paragraph_interrupt_symbols
      if l.eof then
        -- `!eof && !scan(...)` short-circuits: no recursive call, restore matched
        let s := { s with matched := matchedTemp }
        let s := { s with indentation := 0, column := 0 }
        lineEndingPart s l v
      else
        let r := inner s l symbols
        if !r.ret then
          let s := { r.s with matched := 0 }
          let s := { s with indentation := 0, column := 0 }
          let s := { s with state := { s.state with matching := one } }
          if v Tok.PIPE_TABLE_LINE_ENDING then
            if allm then ⟨true, some Tok.PIPE_TABLE_LINE_ENDING, s, r.lex⟩
            else
              let s := { s with indentation := 0, column := 0 }
              lineEndingPart s r.lex v
          else
            let s := { s with state := { s.state with wasSoftLineBreak := true } }
            ⟨true, some Tok.SOFT_LINE_ENDING, s, r.lex⟩
        else
          let s := { r.s with matched := matchedTemp }
          let s := { s with indentation := 0, column := 0 }
          lineEndingPart s r.lex v
    else lineEndingPart s l v
  else ⟨false, none, s, l⟩

/-- The post-switch checks of the non-matching branch (pipe-table start,
language/key/naked-value specifiers), then line-break handling. -/
def after_switch (inner : Scanner → TSLexer → (Tok → Bool) → Res)
    (s : Scanner) (l : TSLexer) (v : Tok → Bool) : Res :=
  if !(l.look '\r') && !(l.look '\n') && v Tok.PIPE_TABLE_START then
    parse_pipe_table s l
  else if (v Tok.LANGUAGE_SPECIFIER || v Tok.KEY_SPECIFIER ||
           v Tok.NAKED_VALUE_SPECIFIER) &&
          TSLexer.lookIs l (fun c => ('A' ≤ c && c ≤ 'Z') || ('a' ≤ c && c ≤ 'z')) then
    liftLex (parse_language_specifier l v) s
  else if v Tok.NAKED_VALUE_SPECIFIER &&
          TSLexer.lookIs l (fun c => '0' ≤ c && c ≤ '9') then
    liftLex (parse_language_specifier l v) s
  else line_break inner s l v

/-- The first-character dispatch switch of the non-matching branch. -/
def non_matching_switch (inner : Scanner → TSLexer → (Tok → Bool) → Res)
    (s : Scanner) (l : TSLexer) (v : Tok → Bool) : Res :=
  if l.look '\r' || l.look '\n' then
    if v Tok.BLANK_LINE_START then ⟨true, some Tok.BLANK_LINE_START, s, l⟩
    else after_switch inner s l v
  else if l.look ':' then parse_fenced_div_marker s l v
  else if l.look '`' then parse_fenced_code_block '`' s l v
  else if l.look '~' then parse_fenced_code_block '~' s l v
  else if l.look '*' then parse_star s l v
  else if l.look '_' then parse_thematic_break_underscore s l v
  else if l.look '>' then
    if v Tok.SHORTCODE_CLOSE || v Tok.SHORTCODE_CLOSE_ESCAPED then
      liftLex (parse_shortcode_close l v) s
    else parse_block_quote s l v
  else if l.look '#' then parse_atx_heading s l v
  else if l.look '=' then parse_setext_underline s l v
  else if l.look '+' then parse_plus s l v
  else if TSLexer.lookIs l (fun c => '0' ≤ c && c ≤ '9') then
    if !(v Tok.NAKED_VALUE_SPECIFIER) then parse_ordered_list_marker s l v
    else after_switch inner s l v
  else if l.look '-' then parse_minus s l v
  else if l.look '[' then
    if v Tok.HIGHLIGHT_SPAN_START || v Tok.INSERT_SPAN_START ||
       v Tok.DELETE_SPAN_START || v Tok.COMMENT_SPAN_START ||
       v Tok.REF_ID_SPECIFIER then
      liftLex (parse_open_square_brace l v) s
    else after_switch inner s l v
  else if l.look '^' then
    if v Tok.FENCED_DIV_NOTE_ID then parse_fenced_div_note_id s l
    else after_switch inner s l v
  else if l.look '(' then parse_example_list_marker s l v
  else if l.look '\'' then liftLex (parse_single_quote l v) s
  else if l.look '"' then liftLex (parse_double_quote l v) s
  else if l.look '{' then
    if v Tok.SHORTCODE_OPEN || v Tok.SHORTCODE_OPEN_ESCAPED then
      liftLex (parse_shortcode_open l v) s
    else after_switch inner s l v
  else if l.look '@' then liftLex (parse_cite_author_in_text l v) s
  else after_switch inner s l v

/-- The non-matching branch of `scan`: consume leading whitespace into
`indentation`, try an indented chunk, then dispatch on the first
character. -/
def non_matching (inner : Scanner → TSLexer → (Tok → Bool) → Res)
    (s : Scanner) (l : TSLexer) (v : Tok → Bool) : Res :=
  let (sz, col, l) := skipWs (l.input.length + 1) s.column l
  let s := { s with indentation := u8 (s.indentation + sz), column := col }
  if v Tok.INDENTED_CHUNK_START && !(v Tok.NO_INDENTED_CHUNK) &&
     4 ≤ s.indentation && !(l.look '\n') && !(l.look '\r') then
    if !s.simulate then
      if !can_push_block s then error s l
      else
        let s := push_block s Block.INDENTED_CODE_BLOCK
        ⟨true, some Tok.INDENTED_CHUNK_START, { s with indentation := s.indentation - 4 }, l⟩
    else ⟨true, some Tok.INDENTED_CHUNK_START, { s with indentation := s.indentation - 4 }, l⟩
  else non_matching_switch inner s l v

/-- The matching branch of `scan`: run the re-match loop, emit
`BLOCK_CONTINUATION` on progress, pop with `BLOCK_CLOSE` on a failure
that is not a soft-line-break continuation, otherwise fall through to
line-break handling. -/
def matching_branch (inner : Scanner → TSLexer → (Tok → Bool) → Res)
    (s : Scanner) (l : TSLexer) (v : Tok → Bool) : Res :=
  let (psucc, s, l) := matching_loop (s.open_blocks.length + 1) false s l
  if psucc then
    let s := if s.matched == s.open_blocks.length then
               { s with state := { s.state with matching := false } }
             else s
    ⟨true, some Tok.BLOCK_CONTINUATION, s, l⟩
  else if !s.state.wasSoftLineBreak then
    let s := pop_block s
    let s := if s.matched == s.open_blocks.length then
               { s with state := { s.state with matching := false } }
             else s
    ⟨true, some Tok.BLOCK_CLOSE, s, l⟩
  else line_break inner s l v

/-- One call of the unified scanner's `scan`, with `inner` standing for
the recursive call used by the next-line simulation. -/
def scanStep (inner : Scanner → TSLexer → (Tok → Bool) → Res)
    (s : Scanner) (l : TSLexer) (v : Tok → Bool) : Res :=
  let insideFencedCode := s.open_blocks.getLast? == some Block.FENCED_CODE_BLOCK
  if v Tok.TRIGGER_ERROR then error s l
  else if l.look '$' && (v Tok.LATEX_SPAN_START || v Tok.LATEX_SPAN_CLOSE) then
    parse_latex_span s l v
  else if !s.simulate && !s.state.matching && l.look '<' && !insideFencedCode &&
          (v Tok.HTML_COMMENT || v Tok.AUTOLINK || v Tok.RAW_SPECIFIER) then
    liftLex (parse_open_angle_brace l v) s
  else if !s.simulate && !s.state.matching && l.look '=' && v Tok.RAW_SPECIFIER then
    liftLex (parse_raw_specifier l v) s
  else if !s.simulate && !s.state.matching && l.look '$' && !insideFencedCode &&
          s.inside_code_span == 0 && v Tok.DISPLAY_MATH_STATE_TRACK_MARKER then
    let (_, s, l) := advance s l
    if l.look '$' then
      let (_, s, l) := advance s l
      let s := { s with state := { s.state with inDisplayMath := !s.state.inDisplayMath } }
      ⟨true, some Tok.DISPLAY_MATH_STATE_TRACK_MARKER, s, l.markEnd⟩
    else ⟨true, some Tok.INLINE_MATH_STATE_TRACK_MARKER, s, l.markEnd⟩
  else if l.look '`' && !(v Tok.FENCED_CODE_BLOCK_START_BACKTICK) &&
          (v Tok.CODE_SPAN_START || v Tok.CODE_SPAN_CLOSE) then
    parse_code_span s l v
  else if v Tok.CLOSE_BLOCK then
    ⟨true, some Tok.CLOSE_BLOCK, { s with state := { s.state with closeBlock := true } }, l⟩
  else if l.eof then
    if v Tok.TOKEN_EOF then ⟨true, some Tok.TOKEN_EOF, s, l⟩
    else if 0 < s.open_blocks.length then
      ⟨true, some Tok.BLOCK_CLOSE, (if !s.simulate then pop_block s else s), l⟩
    else ⟨false, none, s, l⟩
  else if !s.state.matching then non_matching inner s l v
  else matching_branch inner s l v

/-- `scan` at recursion depth `depth` (the simulation call uses
`depth - 1`; depth 0 declines). -/
def scanK : Nat → Scanner → TSLexer → (Tok → Bool) → Res
  | 0, s, l, _ => ⟨false, none, s, l⟩
  | depth + 1, s, l, v => scanStep (scanK depth) s l v

/-- `tree_sitter_markdown_external_scanner_scan`: the driver entry
clears `simulate` and calls `scan`.  Depth 2 is exact: the single
next-line simulation runs at depth 1, and its valid-symbol table has
every line-ending token invalid, so the depth-0 fallback is never
reached. -/
def scan (s : Scanner) (l : TSLexer) (v : Tok → Bool) : Res :=
  scanK 2 { s with simulate := false } l v

end QMD

namespace QMD

/-- Well-formed scanner state: the `uint8_t` fields hold byte values.
(Guaranteed by the C types; needed because the model stores them as
`Nat`.) -/
def Scanner.WF (s : Scanner) : Prop :=
  s.matched < 256 ∧ s.indentation < 256 ∧ s.column < 256 ∧
  s.fenced_code_block_delimiter_length < 256 ∧ s.code_span_delimiter_length < 256 ∧
  s.inside_code_span < 256 ∧ s.latex_span_delimiter_length < 256 ∧
  s.inside_latex_span < 256

instance (s : Scanner) : Decidable s.WF := by
  unfold Scanner.WF; infer_instance

/-- The tokens whose (non-simulated) emission is tied to a block push:
block quote, all list markers, indented chunk, fenced code starts and
fenced div start. -/
def pushTok : Tok → Bool
  | .BLOCK_QUOTE_START => true
  | .INDENTED_CHUNK_START => true
  | .LIST_MARKER_MINUS => true
  | .LIST_MARKER_PLUS => true
  | .LIST_MARKER_STAR => true
  | .LIST_MARKER_PARENTHESIS => true
  | .LIST_MARKER_DOT => true
  | .LIST_MARKER_MINUS_DONT_INTERRUPT => true
  | .LIST_MARKER_PLUS_DONT_INTERRUPT => true
  | .LIST_MARKER_STAR_DONT_INTERRUPT => true
  | .LIST_MARKER_PARENTHESIS_DONT_INTERRUPT => true
  | .LIST_MARKER_DOT_DONT_INTERRUPT => true
  | .LIST_MARKER_EXAMPLE => true
  | .LIST_MARKER_EXAMPLE_DONT_INTERRUPT => true
  | .FENCED_CODE_BLOCK_START_BACKTICK => true
  | .FENCED_CODE_BLOCK_START_TILDE => true
  | .FENCED_DIV_START => true
  | _ => false

/-- A list of characters that is only blanks. -/
def wsOnly (cs : List Char) : Bool := cs.all (fun c => c == ' ' || c == '\t')

/-- A line (without its terminator) that closes a `---` metadata block:
exactly three minuses followed only by blanks. -/
def closingFenceLine (ln : List Char) : Prop :=
  ∃ w, ln = '-' :: '-' :: '-' :: w ∧ wsOnly w = true

/-- A line body free of terminator characters. -/
def noTerm (ln : List Char) : Bool := ln.all (fun c => !(c == '\n' || c == '\r'))

/-- Newline-terminate and concatenate a list of line bodies. -/
def joinLines (lns : List (List Char)) : List Char :=
  (lns.map (fun ln => ln ++ ['\n'])).flatten

/-- Convenience: the valid-symbol mask that is true exactly on a list of
tokens. -/
def maskOf (ts : List Tok) : Tok → Bool := fun t => ts.contains t

/-- The zero scanner state (what `deserialize` on an empty buffer, i.e.
`create`, produces). -/
def initScanner : Scanner := deserialize []

end QMD

namespace MDI

/-- Well-formed inline-scanner state: the twelve `uint8_t` counters hold
byte values. -/
def Scanner.WF (s : Scanner) : Prop :=
  s.state < 256 ∧ s.code_span_delimiter_length < 256 ∧
  s.latex_span_delimiter_length < 256 ∧ s.num_emphasis_delimiters_left < 256 ∧
  s.inside_shortcode < 256 ∧ s.inside_superscript < 256 ∧ s.inside_subscript < 256 ∧
  s.inside_strikeout < 256 ∧ s.inside_single_quote < 256 ∧ s.inside_double_quote < 256 ∧
  s.inside_latex_span < 256 ∧ s.inside_code_span < 256

instance (s : Scanner) : Decidable s.WF := by
  unfold Scanner.WF; infer_instance

/-- Convenience mask constructor. -/
def maskOf (ts : List Tok) : Tok → Bool := fun t => ts.contains t

/-- The zero inline-scanner state. -/
def initScanner : Scanner := deserialize []

end MDI

/-! ## Basic lexer lemmas -/

theorem TSLexer.adv_input (l : TSLexer) : l.adv.input = l.input := by
  unfold TSLexer.adv; split <;> rfl

theorem TSLexer.adv_committed (l : TSLexer) : l.adv.committed = l.committed := by
  unfold TSLexer.adv; split <;> rfl

theorem TSLexer.markEnd_input (l : TSLexer) : l.markEnd.input = l.input := rfl

namespace QMD

theorem advC_committed (col : Nat) (l : TSLexer) :
    (advC col l).2.2.committed = l.committed := by
  unfold advC; split <;> simp [TSLexer.adv_committed]

theorem advC_input (col : Nat) (l : TSLexer) :
    (advC col l).2.2.input = l.input := by
  unfold advC; split <;> simp [TSLexer.adv_input]

theorem skipWs_committed (fuel col : Nat) (l : TSLexer) :
    (skipWs fuel col l).2.2.committed = l.committed := by
  induction fuel generalizing col l with
  | zero => rfl
  | succ fuel ih =>
    unfold skipWs
    split
    · exact (ih (advC col l).2.1 (advC col l).2.2).trans (advC_committed col l)
    · rfl

end QMD

/-! ## Serialization round-trip lemmas -/

namespace QMD

theorem Flags.ofByte_toByte (f : Flags) : Flags.ofByte (u8 f.toByte) = f := by
  rcases f with ⟨m, w, c, d⟩
  cases m <;> cases w <;> cases c <;> cases d <;> decide

theorem Block.ofOrdinal_toNat (b : Block) : Block.ofOrdinal b.toNat = b := by
  cases b <;> rfl

theorem blockBytes_length (b : Block) : (blockBytes b).length = 4 := by
  cases b <;> rfl

theorem readBlocks_flatten (bs : List Block) :
    readBlocks bs.length ((bs.map blockBytes).flatten) = bs := by
  induction bs with
  | nil => rfl
  | cons b bs ih =>
    cases b <;>
      simpa [readBlocks, blockBytes, Block.toNat, List.getD, Block.ofOrdinal] using ih

theorem flatten_blockBytes_length (bs : List Block) :
    ((bs.map blockBytes).flatten).length = 4 * bs.length := by
  induction bs with
  | nil => rfl
  | cons b bs ih =>
    simp [List.flatten, blockBytes_length, ih]
    ring

theorem serialize_length (s : Scanner) :
    (serialize s).length = 13 + 4 * s.open_blocks.length := by
  have h := flatten_blockBytes_length s.open_blocks
  simp only [serialize, List.length_append, List.length_cons, List.length_nil, h]

end QMD

namespace QMD

theorem serialize_drop13 (s : Scanner) :
    (serialize s).drop 13 = (s.open_blocks.map blockBytes).flatten := by
  simp [serialize]

theorem serialize_count (s : Scanner) :
    ((serialize s).length - 13) / 4 = s.open_blocks.length := by
  rw [serialize_length, Nat.add_sub_cancel_left, Nat.mul_div_cancel_left _ (by norm_num)]

theorem deserialize_serialize_qmd (s : Scanner) (h : s.WF) :
    (deserialize (serialize s)).state = s.state ∧
    (deserialize (serialize s)).matched = s.matched ∧
    (deserialize (serialize s)).indentation = s.indentation ∧
    (deserialize (serialize s)).column = s.column ∧
    (deserialize (serialize s)).fenced_code_block_delimiter_length =
      s.fenced_code_block_delimiter_length ∧
    (deserialize (serialize s)).code_span_delimiter_length = s.code_span_delimiter_length ∧
    (deserialize (serialize s)).inside_code_span = s.inside_code_span ∧
    (deserialize (serialize s)).latex_span_delimiter_length =
      s.latex_span_delimiter_length ∧
    (deserialize (serialize s)).inside_latex_span = s.inside_latex_span ∧
    (deserialize (serialize s)).open_blocks = s.open_blocks := by
  obtain ⟨h1, h2, h3, h4, h5, h6, h7, h8⟩ := h
  have hpos : 0 < (serialize s).length := by
    rw [serialize_length]; omega
  refine ⟨?_, ?_, ?_, ?_, ?_, ?_, ?_, ?_, ?_, ?_⟩
  · simp only [deserialize, if_pos hpos]
    have hg : (serialize s).getD 4 0 = u8 s.state.toByte := by simp [serialize, List.getD]
    rw [hg, Flags.ofByte_toByte]
  · simp [deserialize, if_pos hpos, serialize, List.getD, u8, Nat.mod_eq_of_lt, h1]
  · simp [deserialize, if_pos hpos, serialize, List.getD, u8, Nat.mod_eq_of_lt, h2]
  · simp [deserialize, if_pos hpos, serialize, List.getD, u8, Nat.mod_eq_of_lt, h3]
  · simp [deserialize, if_pos hpos, serialize, List.getD, u8, Nat.mod_eq_of_lt, h4]
  · simp [deserialize, if_pos hpos, serialize, List.getD, u8, Nat.mod_eq_of_lt, h5]
  · simp [deserialize, if_pos hpos, serialize, List.getD, u8, Nat.mod_eq_of_lt, h6]
  · simp [deserialize, if_pos hpos, serialize, List.getD, u8, Nat.mod_eq_of_lt, h7]
  · simp [deserialize, if_pos hpos, serialize, List.getD, u8, Nat.mod_eq_of_lt, h8]
  · simp only [deserialize, if_pos hpos]
    rw [serialize_count, serialize_drop13, readBlocks_flatten]

end QMD

namespace MDI

theorem deserialize_serialize_mdi (t : Scanner) (h : t.WF) :
    deserialize (serialize t) = t := by
  obtain ⟨h1, h2, h3, h4, h5, h6, h7, h8, h9, h10, h11, h12⟩ := h
  simp [deserialize, serialize, List.getD, u8, Nat.mod_eq_of_lt,
    h1, h2, h3, h4, h5, h6, h7, h8, h9, h10, h11, h12]

end MDI

/-- Concrete unified-scanner state for the C1 witness. -/
def c1S : QMD.Scanner :=
  { own_size := 0,
    open_blocks := [QMD.Block.BLOCK_QUOTE, QMD.Block.LIST_ITEM_3_INDENTATION,
                    QMD.Block.FENCED_DIV],
    state := ⟨true, false, true, true⟩, matched := 2, indentation := 7, column := 3,
    fenced_code_block_delimiter_length := 4, code_span_delimiter_length := 2,
    inside_code_span := 1, latex_span_delimiter_length := 1, inside_latex_span := 1,
    simulate := false }

/-- Concrete inline-scanner state for the C1 witness. -/
def c1T : MDI.Scanner := ⟨33, 2, 1, 4, 3, 1, 0, 1, 0, 1, 0, 1⟩

/-- C1: for every unified-scanner state (with byte-valued `uint8_t`
fields), deserializing the serialized buffer restores the state flags,
`matched`, `indentation`, `column`, the fenced-code delimiter length,
the code-span delimiter length and flag, the latex-span delimiter length
and flag, and the open-block stack contents; and for every
markdown-inline scanner state, the full twelve-counter state is
restored: `deserialize (serialize s) = s`. -/
theorem c1_serialize_deserialize_roundtrip :
    (∀ s : QMD.Scanner, s.WF →
      (QMD.deserialize (QMD.serialize s)).state = s.state ∧
      (QMD.deserialize (QMD.serialize s)).matched = s.matched ∧
      (QMD.deserialize (QMD.serialize s)).indentation = s.indentation ∧
      (QMD.deserialize (QMD.serialize s)).column = s.column ∧
      (QMD.deserialize (QMD.serialize s)).fenced_code_block_delimiter_length =
        s.fenced_code_block_delimiter_length ∧
      (QMD.deserialize (QMD.serialize s)).code_span_delimiter_length =
        s.code_span_delimiter_length ∧
      (QMD.deserialize (QMD.serialize s)).inside_code_span = s.inside_code_span ∧
      (QMD.deserialize (QMD.serialize s)).latex_span_delimiter_length =
        s.latex_span_delimiter_length ∧
      (QMD.deserialize (QMD.serialize s)).inside_latex_span = s.inside_latex_span ∧
      (QMD.deserialize (QMD.serialize s)).open_blocks = s.open_blocks)
  ∧ (∀ t : MDI.Scanner, t.WF → MDI.deserialize (MDI.serialize t) = t) :=
  ⟨QMD.deserialize_serialize_qmd, MDI.deserialize_serialize_mdi⟩

/-- C1 witness: the round trip at a concrete state of each scanner. -/
theorem c1_serialize_deserialize_roundtrip_witness :
    (c1S.WF ∧
      (QMD.deserialize (QMD.serialize c1S)).state = c1S.state ∧
      (QMD.deserialize (QMD.serialize c1S)).matched = c1S.matched ∧
      (QMD.deserialize (QMD.serialize c1S)).indentation = c1S.indentation ∧
      (QMD.deserialize (QMD.serialize c1S)).column = c1S.column ∧
      (QMD.deserialize (QMD.serialize c1S)).fenced_code_block_delimiter_length =
        c1S.fenced_code_block_delimiter_length ∧
      (QMD.deserialize (QMD.serialize c1S)).code_span_delimiter_length =
        c1S.code_span_delimiter_length ∧
      (QMD.deserialize (QMD.serialize c1S)).inside_code_span = c1S.inside_code_span ∧
      (QMD.deserialize (QMD.serialize c1S)).latex_span_delimiter_length =
        c1S.latex_span_delimiter_length ∧
      (QMD.deserialize (QMD.serialize c1S)).inside_latex_span = c1S.inside_latex_span ∧
      (QMD.deserialize (QMD.serialize c1S)).open_blocks = c1S.open_blocks)
  ∧ (c1T.WF ∧ MDI.deserialize (MDI.serialize c1T) = c1T) :=
  ⟨⟨by decide, c1_serialize_deserialize_roundtrip.1 c1S (by decide)⟩,
   ⟨by decide, c1_serialize_deserialize_roundtrip.2 c1T (by decide)⟩⟩

/-- Concrete state (one open block) for the C3 counterexample. -/
def c3S : QMD.Scanner := { QMD.initScanner with open_blocks := [QMD.Block.BLOCK_QUOTE] }

/-- C3 counterexample: a state with one open block serializes to 17
bytes, not the claimed `13 + (number of open blocks) = 14`: each open
block occupies `sizeof(Block) = 4` bytes in the `memcpy`, not one. -/
theorem c3_serialize_one_byte_per_block_counterexample :
    (QMD.serialize c3S).length = 17 ∧ c3S.open_blocks.length = 1 ∧
    (QMD.serialize c3S).length ≠ 13 + c3S.open_blocks.length := by decide

/-- C3 (amended): `serialize` writes 4 zero reserved bytes, then one
byte each for `state`, `matched`, `indentation`, `column`, the
fenced-code delimiter length, the code-span delimiter length and flag,
and the latex-span delimiter length and flag, followed by **four** bytes
per open block (the `memcpy` of the `Block` array, `sizeof(Block) = 4`,
little-endian with zero upper bytes); hence the returned byte count is
`13 + 4 * (number of open blocks)`. -/
theorem c3_serialize_layout (s : QMD.Scanner) :
    QMD.serialize s =
      [0, 0, 0, 0] ++
      [u8 s.state.toByte, u8 s.matched, u8 s.indentation, u8 s.column,
       u8 s.fenced_code_block_delimiter_length, u8 s.code_span_delimiter_length,
       u8 s.inside_code_span, u8 s.latex_span_delimiter_length,
       u8 s.inside_latex_span] ++
      (s.open_blocks.map QMD.blockBytes).flatten ∧
    (∀ b : QMD.Block, (QMD.blockBytes b).length = 4) ∧
    (QMD.serialize s).length = 13 + 4 * s.open_blocks.length :=
  ⟨rfl, QMD.blockBytes_length, QMD.serialize_length s⟩

namespace QMD

theorem look_iff (l : TSLexer) (d : Char) :
    l.look d = true ↔ l.input.get? l.pos = some d := by
  simp [TSLexer.look, TSLexer.lookahead]

theorem eof_iff (l : TSLexer) : l.eof = true ↔ l.input.get? l.pos = none := by
  simp [TSLexer.eof, List.get?_eq_none]

theorem adv_of_lt (l : TSLexer) (h : l.pos < l.input.length) :
    l.adv = { input := l.input, pos := l.pos + 1, committed := l.committed } := by
  simp [TSLexer.adv, h]

/-- The stopping characters of the angle-brace scanning loop, given
which of `RAW_SPECIFIER` and `AUTOLINK` are valid. -/
def angleStop (vr va : Bool) (c : Char) : Bool :=
  c == ' ' || c == '\t' || (vr && c == '}') || (va && c == '>')

/-- Index and identity of the first stopping character of a character
list (the specification-side search). -/
def firstStop (vr va : Bool) : List Char → Option (Nat × Char)
  | [] => none
  | c :: cs =>
    if angleStop vr va c then some (0, c)
    else (firstStop vr va cs).map (fun p => (p.1 + 1, p.2))

/-- Specification of the angle-brace scanning loop: on the first
stopping character, `}` emits `RAW_SPECIFIER`, committing at (and not
consuming) the brace; `>` emits `AUTOLINK`, consuming it without
committing; a blank declines; reaching end of input declines. -/
def AngleSpec (l : TSLexer) (v : Tok → Bool) (r : Bool × Option Tok × TSLexer) : Prop :=
  match firstStop (v Tok.RAW_SPECIFIER) (v Tok.AUTOLINK) (l.input.drop l.pos) with
  | none => r.1 = false ∧ r.2.1 = none
  | some (k, c) =>
    if c = '}' then
      r = (true, some Tok.RAW_SPECIFIER,
           { input := l.input, pos := l.pos + k, committed := l.pos + k })
    else if c = '>' then
      r = (true, some Tok.AUTOLINK,
           { input := l.input, pos := l.pos + k + 1, committed := l.committed })
    else r.1 = false ∧ r.2.1 = none

theorem angleLoop_spec (fuel : Nat) (l : TSLexer) (v : Tok → Bool)
    (hf : l.input.length - l.pos < fuel) :
    AngleSpec l v (angleLoop fuel l v) := by
  induction fuel generalizing l with
  | zero => omega
  | succ fuel ih =>
    rcases hc : l.input.get? l.pos with _ | c
    · have heof : l.eof = true := (eof_iff l).mpr hc
      have hdrop : l.input.drop l.pos = [] :=
        List.drop_eq_nil_of_le (List.get?_eq_none.mp hc)
      unfold AngleSpec
      rw [hdrop]
      unfold angleLoop firstStop
      rw [heof]
      simp
    · have hpos : l.pos < l.input.length := by
        by_contra hcon
        rw [List.get?_eq_none.mpr (by omega)] at hc
        exact Option.noConfusion hc
      have hdrop : l.input.drop l.pos = c :: l.input.drop (l.pos + 1) := by
        rw [List.drop_eq_get_cons hpos]
        have hv : l.input.get ⟨l.pos, hpos⟩ = c := by
          rcases List.get?_eq_some.mp hc with ⟨h, hv⟩
          exact hv
        rw [hv]
      have hlook : ∀ d, l.look d = (c == d) := by
        intro d
        unfold TSLexer.look TSLexer.lookahead
        rw [hc]
        cases hq : c == d
        · have hne : c ≠ d := by simpa using hq
          simp [hne]
        · have heq : c = d := by simpa using hq
          simp [heq]
      have hadv : l.adv = { input := l.input, pos := l.pos + 1, committed := l.committed } :=
        adv_of_lt l hpos
      have heof : l.eof = false := by
        simp [TSLexer.eof]; omega
      unfold AngleSpec
      rw [hdrop]
      unfold firstStop
      by_cases hstop : angleStop (v Tok.RAW_SPECIFIER) (v Tok.AUTOLINK) c = true
      · rw [if_pos hstop]
        by_cases hsp : c = ' '
        · subst hsp
          simp only [angleLoop, hlook, heof]
          simp [angleStop]
        · by_cases hta : c = '\t'
          · subst hta
            simp only [angleLoop, hlook, heof]
            simp [angleStop]
          · by_cases hbr : c = '}'
            · subst hbr
              have hvr : v Tok.RAW_SPECIFIER = true := by
                simpa [angleStop] using hstop
              simp only [angleLoop, hlook, heof, hvr]
              have hm : l.markEnd =
                  { input := l.input, pos := l.pos + 0, committed := l.pos + 0 } := by
                simp [TSLexer.markEnd]
              simp [hm]
            · by_cases hgt : c = '>'
              · subst hgt
                have hva : v Tok.AUTOLINK = true := by
                  simpa [angleStop] using hstop
                simp only [angleLoop, hlook, heof, hva]
                by_cases hvr : v Tok.RAW_SPECIFIER = true <;>
                  simp [hvr, hadv]
              · exfalso
                simp [angleStop, hsp, hta, hbr, hgt] at hstop
      · rw [if_neg hstop]
        have hnsp : c ≠ ' ' := by
          intro h; subst h; simp [angleStop] at hstop
        have hnta : c ≠ '\t' := by
          intro h; subst h; simp [angleStop] at hstop
        have hb1 : (v Tok.RAW_SPECIFIER && (c == '}')) = false := by
          cases hv : (v Tok.RAW_SPECIFIER && (c == '}'))
          · rfl
          · exact absurd (by simp [angleStop, hv]) hstop
        have hb2 : (v Tok.AUTOLINK && (c == '>')) = false := by
          cases hv : (v Tok.AUTOLINK && (c == '>'))
          · rfl
          · exact absurd (by simp [angleStop, hv]) hstop
        have h1 : (c == ' ') = false := by simp [hnsp]
        have h2 : (c == '\t') = false := by simp [hnta]
        have hstep : angleLoop (fuel + 1) l v = angleLoop fuel l.adv v := by
          conv_lhs => rw [angleLoop.eq_def]
          simp only [heof, hlook, hb1, hb2, h1, h2]
          simp
        rw [hstep, hadv]
        have ihl := ih { input := l.input, pos := l.pos + 1, committed := l.committed }
          (by show l.input.length - (l.pos + 1) < fuel; omega)
        unfold AngleSpec at ihl
        rcases hfs : firstStop (v Tok.RAW_SPECIFIER) (v Tok.AUTOLINK)
            (l.input.drop (l.pos + 1)) with _ | ⟨k, c'⟩
        · rw [hfs] at ihl
          simpa using ihl
        · rw [hfs] at ihl
          simp only [Option.map_some']
          by_cases hbr : c' = '}'
          · subst hbr
            simp at ihl ⊢
            have he : l.pos + (k + 1) = l.pos + 1 + k := by omega
            rw [he]
            exact ihl
          · by_cases hgt : c' = '>'
            · subst hgt
              simp [hbr] at ihl ⊢
              have he : l.pos + (k + 1) + 1 = l.pos + 1 + k + 1 := by omega
              rw [he]
              exact ihl
            · simp [hbr, hgt] at ihl ⊢
              exact ihl

end QMD

/-- C8: corrected behavior of the unified block scanner's angle-brace
handler.  Once the `<` is consumed and the next character is not `!`,
the scan is fully described by `AngleSpec` over the remaining input: a
first-stopping `}` (`RAW_SPECIFIER` valid) emits `RAW_SPECIFIER`,
committing exactly up to the brace; a first-stopping `>` (`AUTOLINK`
valid) consumes it and emits `AUTOLINK` unconditionally — no URL-like
character (`:` or `%`) needs to have been seen and contents starting
with `/` are accepted, the scanner keeping no record of either; a
blank or end of input declines, there being no `HTML_ELEMENT`
placeholder in the token enum to fall back to. -/
theorem c8_angle_brace_events (l : TSLexer) (v : QMD.Tok → Bool)
    (h1 : (v QMD.Tok.AUTOLINK || v QMD.Tok.RAW_SPECIFIER || v QMD.Tok.HTML_COMMENT) = true)
    (h2 : l.look '<' = true)
    (h3 : l.adv.look '!' = false) :
    QMD.AngleSpec l.adv v (QMD.parse_open_angle_brace l v) := by
  have hc1 : (!(v QMD.Tok.AUTOLINK) && !(v QMD.Tok.RAW_SPECIFIER)
      && !(v QMD.Tok.HTML_COMMENT)) = false := by
    cases ha : v QMD.Tok.AUTOLINK <;> cases hb : v QMD.Tok.RAW_SPECIFIER <;>
      cases hc : v QMD.Tok.HTML_COMMENT <;> simp_all
  unfold QMD.parse_open_angle_brace
  simp [hc1, h2, h3]
  exact QMD.angleLoop_spec _ _ _ (by omega)

theorem c8_angle_brace_events_witness :
    ((QMD.maskOf [QMD.Tok.RAW_SPECIFIER]) QMD.Tok.AUTOLINK
      || (QMD.maskOf [QMD.Tok.RAW_SPECIFIER]) QMD.Tok.RAW_SPECIFIER
      || (QMD.maskOf [QMD.Tok.RAW_SPECIFIER]) QMD.Tok.HTML_COMMENT) = true ∧
    (TSLexer.mk0 "<a\x7d").look '<' = true ∧
    (TSLexer.mk0 "<a\x7d").adv.look '!' = false ∧
    QMD.AngleSpec (TSLexer.mk0 "<a\x7d").adv (QMD.maskOf [QMD.Tok.RAW_SPECIFIER])
      (QMD.parse_open_angle_brace (TSLexer.mk0 "<a\x7d") (QMD.maskOf [QMD.Tok.RAW_SPECIFIER])) :=
  ⟨by decide, by decide, by decide,
   c8_angle_brace_events (TSLexer.mk0 "<a\x7d") (QMD.maskOf [QMD.Tok.RAW_SPECIFIER])
     (by decide) (by decide) (by decide)⟩

/-- C8 counterexample: with only `AUTOLINK` valid, the handler accepts
`</x>` and emits `AUTOLINK`, although the bracket content starts with
`/` and contains neither `:` nor `%`; under the claimed behavior no
`AUTOLINK` could be produced on this input. -/
theorem c8_autolink_without_url_counterexample :
    (QMD.parse_open_angle_brace (TSLexer.mk0 "</x>")
        (QMD.maskOf [QMD.Tok.AUTOLINK])).1 = true ∧
    (QMD.parse_open_angle_brace (TSLexer.mk0 "</x>")
        (QMD.maskOf [QMD.Tok.AUTOLINK])).2.1 = some QMD.Tok.AUTOLINK ∧
    "</x>".toList.contains ':' = false ∧ "</x>".toList.contains '%' = false ∧
    "</x>".toList.get? 1 = some '/' := by
  decide
namespace MDI

/-- The prose-quote tokens whose handling the shortcode counter
suppresses. -/
def isQuoteTok : Tok → Bool
  | Tok.SINGLE_QUOTE_OPEN => true
  | Tok.SINGLE_QUOTE_CLOSE => true
  | Tok.DOUBLE_QUOTE_OPEN => true
  | Tok.DOUBLE_QUOTE_CLOSE => true
  | _ => false

/-- A token that is neither a quote token nor a shortcode
open/close token. -/
def neutralTok (t : Tok) : Bool :=
  !(isQuoteTok t) && !(t == Tok.SHORTCODE_OPEN) && !(t == Tok.SHORTCODE_OPEN_ESCAPED) &&
  !(t == Tok.SHORTCODE_CLOSE) && !(t == Tok.SHORTCODE_CLOSE_ESCAPED)

/-- The `inside_shortcode` bookkeeping of a scan result, relative to
the starting state: a shortcode-open emission stores the incremented
byte, a shortcode-close emission the decremented byte (`uint8_t`
arithmetic, so both are mod 256, with no zero check on the way
down). -/
def ShortcodeCounterSpec (s : Scanner) (r : Res) : Prop :=
  ((r.sym = some Tok.SHORTCODE_OPEN ∨ r.sym = some Tok.SHORTCODE_OPEN_ESCAPED) →
    r.s.inside_shortcode = u8 (s.inside_shortcode + 1)) ∧
  ((r.sym = some Tok.SHORTCODE_CLOSE ∨ r.sym = some Tok.SHORTCODE_CLOSE_ESCAPED) →
    r.s.inside_shortcode = u8 (s.inside_shortcode + 255))

theorem shortcode_branch_neutral {s : Scanner} {r : Res}
    (hsym : ∀ t, r.sym = some t → neutralTok t = true)
    (hin : r.s.inside_shortcode = s.inside_shortcode) :
    ShortcodeCounterSpec s r ∧
    (¬ s.inside_shortcode = 0 → ∀ t, r.sym = some t → isQuoteTok t = false) := by
  refine ⟨⟨?_, ?_⟩, ?_⟩
  · rintro (h | h) <;> · have hx := hsym _ h; simp [neutralTok, isQuoteTok] at hx
  · rintro (h | h) <;> · have hx := hsym _ h; simp [neutralTok, isQuoteTok] at hx
  · intro _ t ht
    have hx := hsym t ht
    simp only [neutralTok, Bool.and_eq_true, Bool.not_eq_true'] at hx
    exact hx.1.1.1.1

theorem shortcode_branch_quote {s : Scanner} {r : Res}
    (hz : s.inside_shortcode = 0)
    (hsym : ∀ t, r.sym = some t → isQuoteTok t = true) :
    ShortcodeCounterSpec s r ∧
    (¬ s.inside_shortcode = 0 → ∀ t, r.sym = some t → isQuoteTok t = false) := by
  refine ⟨⟨?_, ?_⟩, fun hne => absurd hz hne⟩
  · rintro (h | h) <;> · have hx := hsym _ h; simp [isQuoteTok] at hx
  · rintro (h | h) <;> · have hx := hsym _ h; simp [isQuoteTok] at hx

theorem shortcode_branch_count {s : Scanner} {r : Res}
    (hfacts : (r.sym = none ∧ r.s = s) ∨
      ((r.sym = some Tok.SHORTCODE_OPEN ∨ r.sym = some Tok.SHORTCODE_OPEN_ESCAPED) ∧
       r.s.inside_shortcode = u8 (s.inside_shortcode + 1)) ∨
      ((r.sym = some Tok.SHORTCODE_CLOSE ∨ r.sym = some Tok.SHORTCODE_CLOSE_ESCAPED) ∧
       r.s.inside_shortcode = u8 (s.inside_shortcode + 255))) :
    ShortcodeCounterSpec s r ∧
    (¬ s.inside_shortcode = 0 → ∀ t, r.sym = some t → isQuoteTok t = false) := by
  rcases hfacts with ⟨hn, hs⟩ | ⟨ho, hc⟩ | ⟨ho, hc⟩
  · refine ⟨⟨?_, ?_⟩, ?_⟩
    · rintro (h | h) <;> simp [hn] at h
    · rintro (h | h) <;> simp [hn] at h
    · intro _ t ht; rw [hn] at ht; exact absurd ht (by simp)
  · refine ⟨⟨fun _ => hc, ?_⟩, ?_⟩
    · rintro (h | h) <;> rcases ho with ho | ho <;> rw [ho] at h <;> simp at h
    · intro _ t ht
      rcases ho with ho | ho <;> rw [ho] at ht <;>
        · obtain rfl : _ = t := by simpa using ht
          rfl
  · refine ⟨⟨?_, fun _ => hc⟩, ?_⟩
    · rintro (h | h) <;> rcases ho with ho | ho <;> rw [ho] at h <;> simp at h
    · intro _ t ht
      rcases ho with ho | ho <;> rw [ho] at ht <;>
        · obtain rfl : _ = t := by simpa using ht
          rfl

theorem parse_leaf_delimiter_sym (dl ds : Nat) (v : Tok → Bool) (c : Char)
    (ot ct : Tok) (l : TSLexer) :
    ∀ t, (parse_leaf_delimiter dl ds v c ot ct l).sym = some t →
      t = ct ∨ t = ot ∨ t = Tok.UNCLOSED_SPAN := by
  intro t ht
  simp only [parse_leaf_delimiter] at ht
  repeat' split at ht
  all_goals simp_all

theorem parse_html_comment_facts (s : Scanner) (l : TSLexer) (v : Tok → Bool) :
    (∀ t, (parse_html_comment s l v).sym = some t → neutralTok t = true) ∧
    (parse_html_comment s l v).s.inside_shortcode = s.inside_shortcode := by
  constructor
  · intro t ht
    simp only [parse_html_comment] at ht
    repeat' split at ht
    all_goals simp at ht
    all_goals (subst ht; decide)
  · simp only [parse_html_comment]
    repeat' split
    all_goals rfl

theorem parse_caret_facts (s : Scanner) (l : TSLexer) (v : Tok → Bool) :
    (∀ t, (parse_caret s l v).sym = some t → neutralTok t = true) ∧
    (parse_caret s l v).s.inside_shortcode = s.inside_shortcode := by
  constructor
  · intro t ht
    simp only [parse_caret] at ht
    repeat' split at ht
    all_goals simp at ht
    all_goals (subst ht; decide)
  · simp only [parse_caret]
    repeat' split
    all_goals rfl

theorem parse_tilde_facts (s : Scanner) (l : TSLexer) (v : Tok → Bool) :
    (∀ t, (parse_tilde s l v).sym = some t → neutralTok t = true) ∧
    (parse_tilde s l v).s.inside_shortcode = s.inside_shortcode := by
  constructor
  · intro t ht
    simp only [parse_tilde, parse_strikeout] at ht
    repeat' split at ht
    all_goals simp at ht
    all_goals (subst ht; decide)
  · simp only [parse_tilde, parse_strikeout]
    repeat' split
    all_goals rfl

theorem parse_star_facts (s : Scanner) (l : TSLexer) (v : Tok → Bool) :
    (∀ t, (parse_star s l v).sym = some t → neutralTok t = true) ∧
    (parse_star s l v).s.inside_shortcode = s.inside_shortcode := by
  constructor
  · intro t ht
    simp only [parse_star] at ht
    repeat' split at ht
    all_goals simp at ht
    all_goals (subst ht; decide)
  · simp only [parse_star]
    repeat' split
    all_goals rfl

theorem parse_underscore_facts (s : Scanner) (l : TSLexer) (v : Tok → Bool) :
    (∀ t, (parse_underscore s l v).sym = some t → neutralTok t = true) ∧
    (parse_underscore s l v).s.inside_shortcode = s.inside_shortcode := by
  constructor
  · intro t ht
    simp only [parse_underscore] at ht
    repeat' split at ht
    all_goals simp at ht
    all_goals (subst ht; decide)
  · simp only [parse_underscore]
    repeat' split
    all_goals rfl

theorem parse_cite_author_facts (s : Scanner) (l : TSLexer) (v : Tok → Bool) :
    (∀ t, (parse_cite_author_in_text s l v).sym = some t → neutralTok t = true) ∧
    (parse_cite_author_in_text s l v).s.inside_shortcode = s.inside_shortcode := by
  constructor
  · intro t ht
    simp only [parse_cite_author_in_text] at ht
    repeat' split at ht
    all_goals simp at ht
    all_goals (subst ht; decide)
  · simp only [parse_cite_author_in_text]
    repeat' split
    all_goals rfl

theorem parse_cite_suppress_facts (s : Scanner) (l : TSLexer) (v : Tok → Bool) :
    (∀ t, (parse_cite_suppress_author s l v).sym = some t → neutralTok t = true) ∧
    (parse_cite_suppress_author s l v).s.inside_shortcode = s.inside_shortcode := by
  constructor
  · intro t ht
    simp only [parse_cite_suppress_author] at ht
    repeat' split at ht
    all_goals simp at ht
    all_goals (subst ht; decide)
  · simp only [parse_cite_suppress_author]
    repeat' split
    all_goals rfl

theorem parse_key_name_facts (s : Scanner) (l : TSLexer) (v : Tok → Bool) :
    (∀ t, (parse_key_name_and_equals s l v).sym = some t → neutralTok t = true) ∧
    (parse_key_name_and_equals s l v).s.inside_shortcode = s.inside_shortcode := by
  constructor
  · intro t ht
    simp only [parse_key_name_and_equals] at ht
    repeat' split at ht
    all_goals simp at ht
    all_goals (subst ht; decide)
  · simp only [parse_key_name_and_equals]
    repeat' split
    all_goals rfl

theorem parse_backtick_facts (s : Scanner) (l : TSLexer) (v : Tok → Bool) :
    (∀ t, (parse_backtick s l v).sym = some t → neutralTok t = true) ∧
    (parse_backtick s l v).s.inside_shortcode = s.inside_shortcode := by
  constructor
  · intro t ht
    have hx := parse_leaf_delimiter_sym s.code_span_delimiter_length s.inside_code_span
      v '`' Tok.CODE_SPAN_START Tok.CODE_SPAN_CLOSE l t (by simpa [parse_backtick] using ht)
    rcases hx with rfl | rfl | rfl <;> rfl
  · simp [parse_backtick]

theorem parse_dollar_facts (s : Scanner) (l : TSLexer) (v : Tok → Bool) :
    (∀ t, (parse_dollar s l v).sym = some t → neutralTok t = true) ∧
    (parse_dollar s l v).s.inside_shortcode = s.inside_shortcode := by
  constructor
  · intro t ht
    have hx := parse_leaf_delimiter_sym s.latex_span_delimiter_length s.inside_latex_span
      v '$' Tok.LATEX_SPAN_START Tok.LATEX_SPAN_CLOSE l t (by simpa [parse_dollar] using ht)
    rcases hx with rfl | rfl | rfl <;> rfl
  · simp [parse_dollar]

theorem parse_single_quote_sym (s : Scanner) (l : TSLexer) (v : Tok → Bool) :
    ∀ t, (parse_single_quote s l v).sym = some t → isQuoteTok t = true := by
  intro t ht
  simp only [parse_single_quote] at ht
  repeat' split at ht
  all_goals simp at ht
  all_goals (subst ht; decide)

theorem parse_double_quote_sym (s : Scanner) (l : TSLexer) (v : Tok → Bool) :
    ∀ t, (parse_double_quote s l v).sym = some t → isQuoteTok t = true := by
  intro t ht
  simp only [parse_double_quote] at ht
  repeat' split at ht
  all_goals simp at ht
  all_goals (subst ht; decide)

theorem parse_shortcode_open_facts (s : Scanner) (l : TSLexer) (v : Tok → Bool) :
    ((parse_shortcode_open s l v).sym = none ∧ (parse_shortcode_open s l v).s = s) ∨
    (((parse_shortcode_open s l v).sym = some Tok.SHORTCODE_OPEN ∨
      (parse_shortcode_open s l v).sym = some Tok.SHORTCODE_OPEN_ESCAPED) ∧
     (parse_shortcode_open s l v).s.inside_shortcode = u8 (s.inside_shortcode + 1)) := by
  simp only [parse_shortcode_open]
  repeat' split
  all_goals simp

theorem parse_shortcode_close_facts (s : Scanner) (l : TSLexer) (v : Tok → Bool) :
    ((parse_shortcode_close s l v).sym = none ∧ (parse_shortcode_close s l v).s = s) ∨
    (((parse_shortcode_close s l v).sym = some Tok.SHORTCODE_CLOSE ∨
      (parse_shortcode_close s l v).sym = some Tok.SHORTCODE_CLOSE_ESCAPED) ∧
     (parse_shortcode_close s l v).s.inside_shortcode = u8 (s.inside_shortcode + 255)) := by
  simp only [parse_shortcode_close]
  repeat' split
  all_goals simp

theorem scan_cases (s : Scanner) (l : TSLexer) (v : Tok → Bool) :
    scan s l v = ⟨true, some Tok.ERROR, s, l⟩ ∨
    scan s l v = parse_html_comment s l v ∨
    scan s l v = parse_shortcode_open s l v ∨
    scan s l v = parse_shortcode_close s l v ∨
    scan s l v = parse_cite_author_in_text s l v ∨
    scan s l v = parse_cite_suppress_author s l v ∨
    scan s l v = parse_caret s l v ∨
    scan s l v = parse_backtick s l v ∨
    scan s l v = parse_dollar s l v ∨
    scan s l v = parse_star s l v ∨
    scan s l v = parse_underscore s l v ∨
    scan s l v = parse_tilde s l v ∨
    (s.inside_shortcode = 0 ∧
      (v Tok.LAST_TOKEN_WHITESPACE || !(s.inside_single_quote == 0)) = true ∧
      scan s l v = parse_single_quote s l v) ∨
    (s.inside_shortcode = 0 ∧
      (v Tok.LAST_TOKEN_WHITESPACE || !(s.inside_double_quote == 0)) = true ∧
      scan s l v = parse_double_quote s l v) ∨
    scan s l v = parse_key_name_and_equals s l v ∨
    scan s l v = ⟨false, none, s, l⟩ := by
  unfold scan
  by_cases h1 : v Tok.TRIGGER_ERROR = true
  case pos => simp [h1]
  rw [if_neg h1]
  by_cases h2 : l.look '<' = true
  case pos => simp [h2]
  rw [if_neg h2]
  by_cases h3 : l.look '{' = true
  case pos => simp [h3]
  rw [if_neg h3]
  by_cases h4 : l.look '>' = true
  case pos => simp [h4]
  rw [if_neg h4]
  by_cases h5 : l.look '@' = true
  case pos => simp [h5]
  rw [if_neg h5]
  by_cases h6 : l.look '-' = true
  case pos => simp [h6]
  rw [if_neg h6]
  by_cases h7 : l.look '^' = true
  case pos => simp [h7]
  rw [if_neg h7]
  by_cases h8 : l.look '`' = true
  case pos => simp [h8]
  rw [if_neg h8]
  by_cases h9 : l.look '$' = true
  case pos => simp [h9]
  rw [if_neg h9]
  by_cases h10 : l.look '*' = true
  case pos => simp [h10]
  rw [if_neg h10]
  by_cases h11 : l.look '_' = true
  case pos => simp [h11]
  rw [if_neg h11]
  by_cases h12 : l.look '~' = true
  case pos => simp [h12]
  rw [if_neg h12]
  by_cases h13 : (s.inside_shortcode == 0 &&
      (v Tok.LAST_TOKEN_WHITESPACE || !(s.inside_single_quote == 0)) &&
      l.look '\'') = true
  case pos =>
    simp only [Bool.and_eq_true, beq_iff_eq] at h13
    obtain ⟨⟨hz, hw⟩, hq⟩ := h13
    simp [hz, hw, hq]
  rw [if_neg h13]
  by_cases h14 : (s.inside_shortcode == 0 &&
      (v Tok.LAST_TOKEN_WHITESPACE || !(s.inside_double_quote == 0)) &&
      l.look '"') = true
  case pos =>
    simp only [Bool.and_eq_true, beq_iff_eq] at h14
    obtain ⟨⟨hz, hw⟩, hq⟩ := h14
    simp [hz, hw, hq]
  rw [if_neg h14]
  by_cases h15 : (!(s.inside_shortcode == 0) && TSLexer.lookIs l is_identifier_start) = true
  case pos => simp [h15]
  rw [if_neg h15]
  simp

end MDI

/-- C10: in the markdown-inline scanner, `inside_shortcode` is a
`uint8_t` counter: every `SHORTCODE_OPEN`/`SHORTCODE_OPEN_ESCAPED`
emission stores the old value plus 1 mod 256, every
`SHORTCODE_CLOSE`/`SHORTCODE_CLOSE_ESCAPED` emission stores the old
value plus 255 mod 256 (a decrement with no zero check); hence a
shortcode close emitted when the counter is 0 wraps it to 255, and
while the counter is non-zero the scan never emits a prose
single-quote or double-quote token. -/
theorem c10_inside_shortcode_wraparound (s : MDI.Scanner) (l : TSLexer) (v : MDI.Tok → Bool) :
    MDI.ShortcodeCounterSpec s (MDI.scan s l v) ∧
    (s.inside_shortcode = 0 →
      ((MDI.scan s l v).sym = some MDI.Tok.SHORTCODE_CLOSE ∨
       (MDI.scan s l v).sym = some MDI.Tok.SHORTCODE_CLOSE_ESCAPED) →
      (MDI.scan s l v).s.inside_shortcode = 255) ∧
    (¬ s.inside_shortcode = 0 →
      ∀ t, (MDI.scan s l v).sym = some t → MDI.isQuoteTok t = false) := by
  have main : MDI.ShortcodeCounterSpec s (MDI.scan s l v) ∧
      (¬ s.inside_shortcode = 0 →
        ∀ t, (MDI.scan s l v).sym = some t → MDI.isQuoteTok t = false) := by
    rcases MDI.scan_cases s l v with
      h | h | h | h | h | h | h | h | h | h | h | h | ⟨hz, hw, h⟩ | ⟨hz, hw, h⟩ | h | h <;> rw [h]
    · exact MDI.shortcode_branch_neutral (by intro t ht; simp at ht; subst ht; decide) rfl
    · exact MDI.shortcode_branch_neutral (MDI.parse_html_comment_facts s l v).1
        (MDI.parse_html_comment_facts s l v).2
    · exact MDI.shortcode_branch_count
        ((MDI.parse_shortcode_open_facts s l v).imp id (fun hx => Or.inl hx))
    · exact MDI.shortcode_branch_count
        ((MDI.parse_shortcode_close_facts s l v).imp id (fun hx => Or.inr hx))
    · exact MDI.shortcode_branch_neutral (MDI.parse_cite_author_facts s l v).1
        (MDI.parse_cite_author_facts s l v).2
    · exact MDI.shortcode_branch_neutral (MDI.parse_cite_suppress_facts s l v).1
        (MDI.parse_cite_suppress_facts s l v).2
    · exact MDI.shortcode_branch_neutral (MDI.parse_caret_facts s l v).1
        (MDI.parse_caret_facts s l v).2
    · exact MDI.shortcode_branch_neutral (MDI.parse_backtick_facts s l v).1
        (MDI.parse_backtick_facts s l v).2
    · exact MDI.shortcode_branch_neutral (MDI.parse_dollar_facts s l v).1
        (MDI.parse_dollar_facts s l v).2
    · exact MDI.shortcode_branch_neutral (MDI.parse_star_facts s l v).1
        (MDI.parse_star_facts s l v).2
    · exact MDI.shortcode_branch_neutral (MDI.parse_underscore_facts s l v).1
        (MDI.parse_underscore_facts s l v).2
    · exact MDI.shortcode_branch_neutral (MDI.parse_tilde_facts s l v).1
        (MDI.parse_tilde_facts s l v).2
    · exact MDI.shortcode_branch_quote hz (MDI.parse_single_quote_sym s l v)
    · exact MDI.shortcode_branch_quote hz (MDI.parse_double_quote_sym s l v)
    · exact MDI.shortcode_branch_neutral (MDI.parse_key_name_facts s l v).1
        (MDI.parse_key_name_facts s l v).2
    · exact MDI.shortcode_branch_neutral (by intro t ht; simp at ht) rfl
  refine ⟨main.1, fun h0 hc => ?_, main.2⟩
  rw [main.1.2 hc, h0]
  decide

theorem c10_inside_shortcode_wraparound_witness :
    MDI.initScanner.inside_shortcode = 0 ∧
    (MDI.scan MDI.initScanner (TSLexer.mk0 ">\x7d\x7da")
        (MDI.maskOf [MDI.Tok.SHORTCODE_CLOSE])).sym = some MDI.Tok.SHORTCODE_CLOSE ∧
    (MDI.scan MDI.initScanner (TSLexer.mk0 ">\x7d\x7da")
        (MDI.maskOf [MDI.Tok.SHORTCODE_CLOSE])).s.inside_shortcode = 255 :=
  ⟨by decide, by decide,
   (c10_inside_shortcode_wraparound MDI.initScanner (TSLexer.mk0 ">\x7d\x7da")
     (MDI.maskOf [MDI.Tok.SHORTCODE_CLOSE])).2.1 (by decide) (Or.inl (by decide))⟩
namespace MDI

theorem look_false_of_look {l : TSLexer} {a : Char} (b : Char)
    (ha : l.look a = true) (hne : ¬ b = a) : l.look b = false := by
  unfold TSLexer.look at ha ⊢
  simp only [decide_eq_true_eq] at ha
  rw [ha]
  simp only [Option.some.injEq, decide_eq_false_iff_not]
  exact fun h => hne h.symm

theorem is_lookahead_whitespace_markEnd (l : TSLexer) :
    is_lookahead_whitespace l.markEnd = is_lookahead_whitespace l := rfl

theorem parse_single_quote_spec (s : Scanner) (l : TSLexer) (v : Tok → Bool) :
    ((parse_single_quote s l v).sym = none ∨
     (parse_single_quote s l v).sym = some Tok.SINGLE_QUOTE_CLOSE ∨
     ((parse_single_quote s l v).sym = some Tok.SINGLE_QUOTE_OPEN ∧
      v Tok.SINGLE_QUOTE_OPEN = true ∧ v Tok.SINGLE_QUOTE_CLOSE = false ∧
      is_lookahead_whitespace l.adv = false)) ∧
    (v Tok.SINGLE_QUOTE_CLOSE = true →
      (parse_single_quote s l v).sym = some Tok.SINGLE_QUOTE_CLOSE) := by
  simp only [parse_single_quote]
  repeat' split
  all_goals simp_all [is_lookahead_whitespace_markEnd]

theorem parse_double_quote_spec (s : Scanner) (l : TSLexer) (v : Tok → Bool) :
    ((parse_double_quote s l v).sym = none ∨
     (parse_double_quote s l v).sym = some Tok.DOUBLE_QUOTE_CLOSE ∨
     ((parse_double_quote s l v).sym = some Tok.DOUBLE_QUOTE_OPEN ∧
      v Tok.DOUBLE_QUOTE_OPEN = true ∧ v Tok.DOUBLE_QUOTE_CLOSE = false)) ∧
    (v Tok.DOUBLE_QUOTE_CLOSE = true →
      (parse_double_quote s l v).sym = some Tok.DOUBLE_QUOTE_CLOSE) := by
  simp only [parse_double_quote]
  repeat' split
  all_goals simp_all

end MDI

/-- C7: corrected quote gating of the markdown-inline scanner.  A
`SINGLE_QUOTE_OPEN` emission requires: outside shortcodes, the branch
gate (`LAST_TOKEN_WHITESPACE` valid or `inside_single_quote` non-zero
— not `LAST_TOKEN_WHITESPACE` alone), `SINGLE_QUOTE_CLOSE` not valid
(close is preferred), and a non-whitespace lookahead after the quote.
A `DOUBLE_QUOTE_OPEN` emission requires the corresponding gate and
`DOUBLE_QUOTE_CLOSE` not valid, but — unlike the claim — carries no
whitespace-lookahead restriction.  When the close token is valid and
the quote branch is reached, the close token is emitted in preference
to the open token. -/
theorem c7_quote_open_gating (s : MDI.Scanner) (l : TSLexer) (v : MDI.Tok → Bool) :
    ((MDI.scan s l v).sym = some MDI.Tok.SINGLE_QUOTE_OPEN →
      s.inside_shortcode = 0 ∧
      (v MDI.Tok.LAST_TOKEN_WHITESPACE || !(s.inside_single_quote == 0)) = true ∧
      v MDI.Tok.SINGLE_QUOTE_CLOSE = false ∧
      MDI.is_lookahead_whitespace l.adv = false) ∧
    ((MDI.scan s l v).sym = some MDI.Tok.DOUBLE_QUOTE_OPEN →
      s.inside_shortcode = 0 ∧
      (v MDI.Tok.LAST_TOKEN_WHITESPACE || !(s.inside_double_quote == 0)) = true ∧
      v MDI.Tok.DOUBLE_QUOTE_CLOSE = false) ∧
    (v MDI.Tok.TRIGGER_ERROR = false → s.inside_shortcode = 0 →
      (v MDI.Tok.LAST_TOKEN_WHITESPACE || !(s.inside_single_quote == 0)) = true →
      l.look '\'' = true → v MDI.Tok.SINGLE_QUOTE_CLOSE = true →
      (MDI.scan s l v).sym = some MDI.Tok.SINGLE_QUOTE_CLOSE) ∧
    (v MDI.Tok.TRIGGER_ERROR = false → s.inside_shortcode = 0 →
      (v MDI.Tok.LAST_TOKEN_WHITESPACE || !(s.inside_double_quote == 0)) = true →
      l.look '"' = true → v MDI.Tok.DOUBLE_QUOTE_CLOSE = true →
      (MDI.scan s l v).sym = some MDI.Tok.DOUBLE_QUOTE_CLOSE) := by
  refine ⟨?_, ?_, ?_, ?_⟩
  · intro hsym
    rcases MDI.scan_cases s l v with
      h | h | h | h | h | h | h | h | h | h | h | h | ⟨hz, hw, h⟩ | ⟨hz, hw, h⟩ | h | h <;>
      rw [h] at hsym
    · simp at hsym
    · exact absurd ((MDI.parse_html_comment_facts s l v).1 _ hsym) (by decide)
    · rcases MDI.parse_shortcode_open_facts s l v with ⟨hn, -⟩ | ⟨ho | ho, -⟩ <;> simp_all
    · rcases MDI.parse_shortcode_close_facts s l v with ⟨hn, -⟩ | ⟨ho | ho, -⟩ <;> simp_all
    · exact absurd ((MDI.parse_cite_author_facts s l v).1 _ hsym) (by decide)
    · exact absurd ((MDI.parse_cite_suppress_facts s l v).1 _ hsym) (by decide)
    · exact absurd ((MDI.parse_caret_facts s l v).1 _ hsym) (by decide)
    · exact absurd ((MDI.parse_backtick_facts s l v).1 _ hsym) (by decide)
    · exact absurd ((MDI.parse_dollar_facts s l v).1 _ hsym) (by decide)
    · exact absurd ((MDI.parse_star_facts s l v).1 _ hsym) (by decide)
    · exact absurd ((MDI.parse_underscore_facts s l v).1 _ hsym) (by decide)
    · exact absurd ((MDI.parse_tilde_facts s l v).1 _ hsym) (by decide)
    · rcases (MDI.parse_single_quote_spec s l v).1 with hn | hc | ⟨ho, h1, h2, h3⟩
      · simp_all
      · simp_all
      · exact ⟨hz, hw, h2, h3⟩
    · rcases (MDI.parse_double_quote_spec s l v).1 with hn | hc | ⟨ho, h1, h2⟩ <;> simp_all
    · exact absurd ((MDI.parse_key_name_facts s l v).1 _ hsym) (by decide)
    · simp at hsym
  · intro hsym
    rcases MDI.scan_cases s l v with
      h | h | h | h | h | h | h | h | h | h | h | h | ⟨hz, hw, h⟩ | ⟨hz, hw, h⟩ | h | h <;>
      rw [h] at hsym
    · simp at hsym
    · exact absurd ((MDI.parse_html_comment_facts s l v).1 _ hsym) (by decide)
    · rcases MDI.parse_shortcode_open_facts s l v with ⟨hn, -⟩ | ⟨ho | ho, -⟩ <;> simp_all
    · rcases MDI.parse_shortcode_close_facts s l v with ⟨hn, -⟩ | ⟨ho | ho, -⟩ <;> simp_all
    · exact absurd ((MDI.parse_cite_author_facts s l v).1 _ hsym) (by decide)
    · exact absurd ((MDI.parse_cite_suppress_facts s l v).1 _ hsym) (by decide)
    · exact absurd ((MDI.parse_caret_facts s l v).1 _ hsym) (by decide)
    · exact absurd ((MDI.parse_backtick_facts s l v).1 _ hsym) (by decide)
    · exact absurd ((MDI.parse_dollar_facts s l v).1 _ hsym) (by decide)
    · exact absurd ((MDI.parse_star_facts s l v).1 _ hsym) (by decide)
    · exact absurd ((MDI.parse_underscore_facts s l v).1 _ hsym) (by decide)
    · exact absurd ((MDI.parse_tilde_facts s l v).1 _ hsym) (by decide)
    · rcases (MDI.parse_single_quote_spec s l v).1 with hn | hc | ⟨ho, h1, h2, h3⟩ <;> simp_all
    · rcases (MDI.parse_double_quote_spec s l v).1 with hn | hc | ⟨ho, h1, h2⟩
      · simp_all
      · simp_all
      · exact ⟨hz, hw, h2⟩
    · exact absurd ((MDI.parse_key_name_facts s l v).1 _ hsym) (by decide)
    · simp at hsym
  · intro hv hz hw hq hc
    have h1 : MDI.scan s l v = MDI.parse_single_quote s l v := by
      unfold MDI.scan
      rw [hv]
      rw [MDI.look_false_of_look '<' hq (by decide), MDI.look_false_of_look '{' hq (by decide),
        MDI.look_false_of_look '>' hq (by decide), MDI.look_false_of_look '@' hq (by decide),
        MDI.look_false_of_look '-' hq (by decide), MDI.look_false_of_look '^' hq (by decide),
        MDI.look_false_of_look '`' hq (by decide), MDI.look_false_of_look '$' hq (by decide),
        MDI.look_false_of_look '*' hq (by decide), MDI.look_false_of_look '_' hq (by decide),
        MDI.look_false_of_look '~' hq (by decide)]
      simp [hz, hw, hq]
    rw [h1]
    exact (MDI.parse_single_quote_spec s l v).2 hc
  · intro hv hz hw hq hc
    have h1 : MDI.scan s l v = MDI.parse_double_quote s l v := by
      unfold MDI.scan
      rw [hv]
      rw [MDI.look_false_of_look '<' hq (by decide), MDI.look_false_of_look '{' hq (by decide),
        MDI.look_false_of_look '>' hq (by decide), MDI.look_false_of_look '@' hq (by decide),
        MDI.look_false_of_look '-' hq (by decide), MDI.look_false_of_look '^' hq (by decide),
        MDI.look_false_of_look '`' hq (by decide), MDI.look_false_of_look '$' hq (by decide),
        MDI.look_false_of_look '*' hq (by decide), MDI.look_false_of_look '_' hq (by decide),
        MDI.look_false_of_look '~' hq (by decide),
        MDI.look_false_of_look '\'' hq (by decide)]
      simp [hz, hw, hq]
    rw [h1]
    exact (MDI.parse_double_quote_spec s l v).2 hc

theorem c7_quote_open_gating_witness :
    (MDI.maskOf [MDI.Tok.LAST_TOKEN_WHITESPACE, MDI.Tok.SINGLE_QUOTE_CLOSE])
        MDI.Tok.TRIGGER_ERROR = false ∧
    MDI.initScanner.inside_shortcode = 0 ∧
    ((MDI.maskOf [MDI.Tok.LAST_TOKEN_WHITESPACE, MDI.Tok.SINGLE_QUOTE_CLOSE])
        MDI.Tok.LAST_TOKEN_WHITESPACE
      || !(MDI.initScanner.inside_single_quote == 0)) = true ∧
    (TSLexer.mk0 "'x").look '\'' = true ∧
    (MDI.scan MDI.initScanner (TSLexer.mk0 "'x")
        (MDI.maskOf [MDI.Tok.LAST_TOKEN_WHITESPACE, MDI.Tok.SINGLE_QUOTE_CLOSE])).sym =
      some MDI.Tok.SINGLE_QUOTE_CLOSE :=
  ⟨by decide, by decide, by decide, by decide,
   (c7_quote_open_gating MDI.initScanner (TSLexer.mk0 "'x")
       (MDI.maskOf [MDI.Tok.LAST_TOKEN_WHITESPACE, MDI.Tok.SINGLE_QUOTE_CLOSE])).2.2.1
     (by decide) (by decide) (by decide) (by decide) (by decide)⟩

/-- C7 counterexample: with `LAST_TOKEN_WHITESPACE` and
`DOUBLE_QUOTE_OPEN` valid, the scan of a double quote followed by a
space emits `DOUBLE_QUOTE_OPEN` although the lookahead after the quote
is whitespace — the double-quote open branch has no whitespace-
lookahead condition. -/
theorem c7_double_quote_whitespace_counterexample :
    (MDI.scan MDI.initScanner (TSLexer.mk0 "\" ")
        (MDI.maskOf [MDI.Tok.LAST_TOKEN_WHITESPACE, MDI.Tok.DOUBLE_QUOTE_OPEN])).sym =
      some MDI.Tok.DOUBLE_QUOTE_OPEN ∧
    MDI.is_lookahead_whitespace (TSLexer.mk0 "\" ").adv = true := by
  decide
namespace QMD

theorem advC_lex (col : Nat) (l : TSLexer) : (advC col l).2.2 = l.adv := by
  unfold advC
  split <;> rfl

theorem advance_committed (s : Scanner) (l : TSLexer) :
    (advance s l).2.2.committed = l.committed := by
  unfold advance
  exact advC_committed s.column l

theorem advance_state (s : Scanner) (l : TSLexer) : (advance s l).2.1.state = s.state := rfl

theorem advance_blocks (s : Scanner) (l : TSLexer) :
    (advance s l).2.1.open_blocks = s.open_blocks := rfl

theorem advance_sim (s : Scanner) (l : TSLexer) :
    (advance s l).2.1.simulate = s.simulate := rfl

theorem mark_end_committed (s : Scanner) (l : TSLexer) (hs : s.simulate = true) :
    (mark_end s l).committed = l.committed := by
  unfold mark_end mark_end_b
  rw [hs]
  rfl

theorem mark_end_b_committed (l : TSLexer) : (mark_end_b true l).committed = l.committed := rfl

theorem countRun_committed (fuel : Nat) (c : Char) (col : Nat) (l : TSLexer) :
    (countRun fuel c col l).2.2.committed = l.committed := by
  induction fuel generalizing col l with
  | zero => rfl
  | succ fuel ih =>
    simp only [countRun]
    split_ifs <;> simp [ih, advC_committed]

theorem countRunPlain_committed (fuel : Nat) (c : Char) (l : TSLexer) :
    (countRunPlain fuel c l).2.committed = l.committed := by
  induction fuel generalizing l with
  | zero => rfl
  | succ fuel ih =>
    simp only [countRunPlain]
    split_ifs <;> simp [ih, TSLexer.adv_committed]

theorem indLoop_committed (fuel limit ind col : Nat) (l : TSLexer) :
    (indLoop fuel limit ind col l).2.2.committed = l.committed := by
  induction fuel generalizing ind col l with
  | zero => rfl
  | succ fuel ih =>
    simp only [indLoop]
    split_ifs <;> simp [ih, advC_committed]

theorem matchB_committed (b : Block) (ind col : Nat) (l : TSLexer) :
    (matchB b ind col l).2.2.2.committed = l.committed := by
  cases b <;> simp only [matchB] <;>
    split_ifs <;>
    simp [indLoop_committed, skipWs_committed, advC_committed]

theorem consumeRestOfLine_committed (fuel col : Nat) (l : TSLexer) :
    (consumeRestOfLine fuel col l).2.committed = l.committed := by
  induction fuel generalizing col l with
  | zero => rfl
  | succ fuel ih =>
    simp only [consumeRestOfLine]
    split_ifs <;> simp [ih, advC_committed]

theorem advNewline_committed (col : Nat) (l : TSLexer) :
    (advNewline col l).2.committed = l.committed := by
  simp only [advNewline]
  split_ifs <;> simp [advC_committed]

theorem infoStringScan_committed (fuel col : Nat) (l : TSLexer) :
    (infoStringScan fuel col l).2.2.committed = l.committed := by
  induction fuel generalizing col l with
  | zero => rfl
  | succ fuel ih =>
    simp only [infoStringScan]
    split_ifs <;> simp [ih, advC_committed]

theorem starLoop_committed (fuel starCount extra col : Nat) (l : TSLexer) (vstar : Bool) :
    (starLoop fuel starCount extra true col l vstar).2.2.2.committed = l.committed := by
  induction fuel generalizing starCount extra col l with
  | zero => rfl
  | succ fuel ih =>
    simp only [starLoop]
    split_ifs <;> simp [ih, advC_committed, mark_end_b]

theorem underscoreLoop_committed (fuel cnt col : Nat) (l : TSLexer) :
    (underscoreLoop fuel cnt col l).2.2.committed = l.committed := by
  induction fuel generalizing cnt col l with
  | zero => rfl
  | succ fuel ih =>
    simp only [underscoreLoop]
    split_ifs <;> simp [ih, advC_committed]

theorem atxLoop_committed (fuel level col : Nat) (l : TSLexer) :
    (atxLoop fuel level col l).2.2.committed = l.committed := by
  induction fuel generalizing level col l with
  | zero => rfl
  | succ fuel ih =>
    simp only [atxLoop]
    split_ifs <;> simp [ih, advC_committed]

theorem digitLoop_committed (fuel digits : Nat) (dont : Bool) (col : Nat) (l : TSLexer) :
    (digitLoop fuel digits dont col l).2.2.2.committed = l.committed := by
  induction fuel generalizing digits dont col l with
  | zero => rfl
  | succ fuel ih =>
    simp only [digitLoop]
    split_ifs <;> simp [ih, advC_committed]

theorem minusLoop_committed (fuel cnt extra : Nat) (waw maw : Bool) (col : Nat)
    (l : TSLexer) :
    (minusLoop fuel cnt extra waw maw true col l).2.2.2.2.2.committed = l.committed := by
  induction fuel generalizing cnt extra waw maw col l with
  | zero => rfl
  | succ fuel ih =>
    simp only [minusLoop]
    split_ifs <;> simp [ih, advC_committed, mark_end_b]

theorem metadataLoop_committed (fuel : Nat) (c : Char) (advanceFirst : Bool) (col : Nat)
    (l : TSLexer) :
    (metadataLoop fuel c advanceFirst true col l).2.2.committed = l.committed := by
  induction fuel generalizing advanceFirst col l with
  | zero => rfl
  | succ fuel ih =>
    simp only [metadataLoop]
    split_ifs <;> simp [ih, advC_committed, mark_end_b, advNewline_committed,
      countRun_committed, skipWs_committed, consumeRestOfLine_committed]

theorem pipeCellLoop_committed (fuel cellCount : Nat) (endingPipe : Bool) (col : Nat)
    (l : TSLexer) :
    (pipeCellLoop fuel cellCount endingPipe col l).2.2.2.committed = l.committed := by
  induction fuel generalizing cellCount endingPipe col l with
  | zero => rfl
  | succ fuel ih =>
    simp only [pipeCellLoop]
    split_ifs <;> simp [ih, advC_committed]

theorem pipeMatchLoop_committed (fuel : Nat) (blocks : List Block) (mt ind col : Nat)
    (l : TSLexer) :
    (pipeMatchLoop fuel blocks mt ind col l).2.2.2.committed = l.committed := by
  induction fuel generalizing mt ind col l with
  | zero => rfl
  | succ fuel ih =>
    simp only [pipeMatchLoop]
    split_ifs with h
    · rcases hb : blocks.get? mt with _ | b
      · rfl
      · show (if (matchB b ind col l).1 = true then
            pipeMatchLoop fuel blocks (u8 (mt + 1)) (matchB b ind col l).2.1
              (matchB b ind col l).2.2.1 (matchB b ind col l).2.2.2
          else (false, (matchB b ind col l).2.1, (matchB b ind col l).2.2.1,
            (matchB b ind col l).2.2.2)).2.2.2.committed = l.committed
        split_ifs <;> simp [ih, matchB_committed]
    · rfl

theorem pipeDelimLoop_committed (fuel delim col : Nat) (l : TSLexer) :
    (pipeDelimLoop fuel delim col l).2.2.committed = l.committed := by
  induction fuel generalizing delim col l with
  | zero => rfl
  | succ fuel ih =>
    unfold pipeDelimLoop
    split
    rename_i a0 c0 l0 heq0
    have h0 : l0.committed = l.committed := by
      have hx := skipWs_committed (l.input.length + 1) col l
      rw [heq0] at hx
      exact hx
    by_cases h1 : l0.look '|' = true
    · rw [if_pos h1]
      split
      rename_i a1 c1 l1 heq1
      have hc1 : l1.committed = l.committed := by
        have hx := advC_committed c0 l0
        rw [heq1] at hx
        exact hx.trans h0
      exact (ih _ _ _).trans hc1
    · rw [if_neg h1]
      split
      rename_i bad colB lB heqB
      have hB : lB.committed = l.committed := by
        by_cases h2 : l0.look ':' = true
        · rw [if_pos h2] at heqB
          rcases hg1 : advC c0 l0 with ⟨a1, c1, l1⟩
          have hc1 : l1.committed = l.committed := by
            have hx := advC_committed c0 l0
            rw [hg1] at hx
            exact hx.trans h0
          rw [hg1] at heqB
          simp only [] at heqB
          injection heqB with e1 e2
          injection e2 with e2a e2b
          subst e2b
          exact hc1
        · rw [if_neg h2] at heqB
          injection heqB with e1 e2
          injection e2 with e2a e2b
          subst e2b
          exact h0
      by_cases h3 : bad = true
      · rw [if_pos h3]
        exact hB
      · rw [if_neg h3]
        split
        rename_i mcnt c2 l2 heqC
        have h2c : l2.committed = l.committed := by
          have hx := countRun_committed (lB.input.length + 1) '-' colB lB
          rw [heqC] at hx
          exact hx.trans hB
        simp only []
        split_ifs <;>
          simp_all [ih, advC_committed, skipWs_committed]

end QMD
namespace QMD

/-- The block/state bookkeeping of one parse-function result: the state
flags are untouched; in a simulated call the open-block stack is
untouched; in a non-simulated call, either the stack is untouched and no
block-opening token is emitted, or the capacity check passed and
exactly one block was appended. -/
def ParsePres (s : Scanner) (r : Res) : Prop :=
  r.s.state = s.state ∧
  (s.simulate = true → r.s.open_blocks = s.open_blocks) ∧
  (s.simulate = false →
    (r.s.open_blocks = s.open_blocks ∧ ∀ t, r.sym = some t → pushTok t = false) ∨
    (can_push_block s = true ∧ ∃ b, r.s.open_blocks = s.open_blocks ++ [b]))

theorem parsePres_lit_none {s S : Scanner} {bb : Bool} {lx : TSLexer}
    (hst : S.state = s.state) (hbl : S.open_blocks = s.open_blocks) :
    ParsePres s ⟨bb, none, S, lx⟩ :=
  ⟨hst, fun _ => hbl, fun _ => Or.inl ⟨hbl, fun _ ht => Option.noConfusion ht⟩⟩

theorem parsePres_lit_some {s S : Scanner} {bb : Bool} {t0 : Tok} {lx : TSLexer}
    (hst : S.state = s.state) (hbl : S.open_blocks = s.open_blocks)
    (hp : pushTok t0 = false) :
    ParsePres s ⟨bb, some t0, S, lx⟩ :=
  ⟨hst, fun _ => hbl, fun _ => Or.inl ⟨hbl, fun _ ht => (Option.some.inj ht) ▸ hp⟩⟩

theorem parsePres_lit_sim {s S : Scanner} {bb : Bool} {sy : Option Tok} {lx : TSLexer}
    (hst : S.state = s.state) (hbl : S.open_blocks = s.open_blocks)
    (hsim : S.simulate = s.simulate)
    (hS : ¬((!S.simulate) = true)) :
    ParsePres s ⟨bb, sy, S, lx⟩ := by
  have ht : S.simulate = true := by simpa using hS
  exact ⟨hst, fun _ => hbl,
    fun hs => absurd (hsim.symm.trans ht) (by simp [hs])⟩

theorem parsePres_push2 {s S' S0 : Scanner} {bb : Bool} {sy : Option Tok} {lx : TSLexer}
    (hcp : ¬((!can_push_block S0) = true))
    (hblS : S0.open_blocks = s.open_blocks)
    (hS : (!s.simulate) = true)
    (hst : S'.state = s.state)
    (hbl : ∃ b, S'.open_blocks = s.open_blocks ++ [b]) :
    ParsePres s ⟨bb, sy, S', lx⟩ := by
  have hcp' : can_push_block s = true := by
    have h2 : can_push_block S0 = true := by simpa using hcp
    unfold can_push_block at h2 ⊢
    rwa [hblS] at h2
  have hS' : s.simulate = false := by simpa using hS
  exact ⟨hst, fun hs => absurd hs (by simp [hS']), fun _ => Or.inr ⟨hcp', hbl⟩⟩

theorem ParsePres.transport {s S : Scanner} {r : Res}
    (h : ParsePres S r) (hst : S.state = s.state) (hbl : S.open_blocks = s.open_blocks)
    (hsim : S.simulate = s.simulate) : ParsePres s r := by
  obtain ⟨h1, h2, h3⟩ := h
  refine ⟨h1.trans hst, fun hs => (h2 (hsim.trans hs)).trans hbl, fun hs => ?_⟩
  rcases h3 (hsim.trans hs) with ⟨hb, hsym⟩ | ⟨hcp, b, hb⟩
  · exact Or.inl ⟨hb.trans hbl, hsym⟩
  · refine Or.inr ⟨?_, b, by rw [hb, hbl]⟩
    unfold can_push_block at hcp ⊢
    rwa [hbl] at hcp

theorem liftLex_parsePres {p : Bool × Option Tok × TSLexer} {s : Scanner}
    (hsym : ∀ t, p.2.1 = some t → pushTok t = false) : ParsePres s (liftLex p s) :=
  ⟨rfl, fun _ => rfl, fun _ => Or.inl ⟨rfl, hsym⟩⟩

theorem pushTok_atx_marker (level : Nat) : pushTok (atx_marker level) = false := by
  unfold atx_marker
  repeat' split
  all_goals rfl

theorem parse_fenced_div_marker_pres (s : Scanner) (l : TSLexer) (v : Tok → Bool) :
    ParsePres s (parse_fenced_div_marker s l v) := by
  suffices h : ∀ r, parse_fenced_div_marker s l v = r → ParsePres s r from h _ rfl
  intro r hr
  unfold parse_fenced_div_marker error at hr
  simp only [] at hr
  repeat' split at hr
  all_goals subst hr
  all_goals first
    | exact parsePres_lit_none rfl rfl
    | exact parsePres_lit_some rfl rfl rfl
    | exact parsePres_lit_some rfl rfl (pushTok_atx_marker _)
    | exact parsePres_lit_sim rfl rfl rfl (by assumption)
    | exact parsePres_push2 (by assumption) rfl (by assumption) rfl ⟨_, rfl⟩
    | exact parsePres_lit_some rfl rfl (pushTok_atx_marker _)
    | exact parsePres_lit_sim rfl rfl rfl (by assumption)
    | exact parsePres_push2 (by assumption) rfl (by assumption) rfl ⟨_, rfl⟩

theorem fcb_start_pres (c : Char) (level : Nat) (s : Scanner) (l : TSLexer)
    (v : Tok → Bool) : ParsePres s (fcb_start c level s l v) := by
  suffices h : ∀ r, fcb_start c level s l v = r → ParsePres s r from h _ rfl
  intro r hr
  unfold fcb_start error at hr
  simp only [] at hr
  repeat' split at hr
  all_goals subst hr
  all_goals first
    | exact parsePres_lit_none rfl rfl
    | exact parsePres_lit_some rfl rfl rfl
    | exact parsePres_lit_some rfl rfl (pushTok_atx_marker _)
    | exact parsePres_lit_sim rfl rfl rfl (by assumption)
    | exact parsePres_push2 (by assumption) rfl (by assumption) rfl ⟨_, rfl⟩
    | exact parsePres_lit_some rfl rfl (pushTok_atx_marker _)
    | exact parsePres_lit_sim rfl rfl rfl (by assumption)
    | exact parsePres_push2 (by assumption) rfl (by assumption) rfl ⟨_, rfl⟩

theorem parse_fenced_code_block_pres (c : Char) (s : Scanner) (l : TSLexer)
    (v : Tok → Bool) : ParsePres s (parse_fenced_code_block c s l v) := by
  suffices h : ∀ r, parse_fenced_code_block c s l v = r → ParsePres s r from h _ rfl
  intro r hr
  unfold parse_fenced_code_block at hr
  simp only [] at hr
  repeat' split at hr
  all_goals first
    | (subst hr
       first
         | exact parsePres_lit_none rfl rfl
         | exact parsePres_lit_some rfl rfl rfl)
    | (rw [← hr]
       exact ParsePres.transport (fcb_start_pres _ _ _ _ _) rfl rfl rfl)


set_option maxHeartbeats 1000000 in
theorem parse_star_pres (s : Scanner) (l : TSLexer) (v : Tok → Bool) :
    ParsePres s (parse_star s l v) := by
  suffices h : ∀ r, parse_star s l v = r → ParsePres s r from h _ rfl
  intro r hr
  unfold parse_star error at hr
  simp only [] at hr
  repeat' split at hr
  all_goals subst hr
  all_goals first
    | exact parsePres_lit_none rfl rfl
    | exact parsePres_lit_some rfl rfl rfl
    | exact parsePres_lit_some rfl rfl (pushTok_atx_marker _)
    | exact parsePres_lit_sim rfl rfl rfl (by assumption)
    | exact parsePres_push2 (by assumption) rfl (by assumption) rfl ⟨_, rfl⟩
    | exact parsePres_lit_some rfl rfl (pushTok_atx_marker _)
    | exact parsePres_lit_sim rfl rfl rfl (by assumption)
    | exact parsePres_push2 (by assumption) rfl (by assumption) rfl ⟨_, rfl⟩

theorem parse_thematic_break_underscore_pres (s : Scanner) (l : TSLexer) (v : Tok → Bool) :
    ParsePres s (parse_thematic_break_underscore s l v) := by
  suffices h : ∀ r, parse_thematic_break_underscore s l v = r → ParsePres s r from h _ rfl
  intro r hr
  unfold parse_thematic_break_underscore at hr
  simp only [] at hr
  repeat' split at hr
  all_goals subst hr
  all_goals first
    | exact parsePres_lit_none rfl rfl
    | exact parsePres_lit_some rfl rfl rfl
    | exact parsePres_lit_some rfl rfl (pushTok_atx_marker _)
    | exact parsePres_lit_sim rfl rfl rfl (by assumption)
    | exact parsePres_push2 (by assumption) rfl (by assumption) rfl ⟨_, rfl⟩

theorem parse_block_quote_pres (s : Scanner) (l : TSLexer) (v : Tok → Bool) :
    ParsePres s (parse_block_quote s l v) := by
  suffices h : ∀ r, parse_block_quote s l v = r → ParsePres s r from h _ rfl
  intro r hr
  unfold parse_block_quote error at hr
  simp only [] at hr
  repeat' split at hr
  all_goals subst hr
  all_goals first
    | exact parsePres_lit_none rfl rfl
    | exact parsePres_lit_some rfl rfl rfl
    | exact parsePres_lit_some rfl rfl (pushTok_atx_marker _)
    | exact parsePres_lit_sim rfl rfl rfl (by assumption)
    | exact parsePres_push2 (by assumption) rfl (by assumption) rfl ⟨_, rfl⟩
    | exact parsePres_lit_some rfl rfl (pushTok_atx_marker _)
    | exact parsePres_lit_sim rfl rfl rfl (by assumption)
    | exact parsePres_push2 (by assumption) rfl (by assumption) rfl ⟨_, rfl⟩

theorem parse_atx_heading_pres (s : Scanner) (l : TSLexer) (v : Tok → Bool) :
    ParsePres s (parse_atx_heading s l v) := by
  suffices h : ∀ r, parse_atx_heading s l v = r → ParsePres s r from h _ rfl
  intro r hr
  unfold parse_atx_heading at hr
  simp only [] at hr
  repeat' split at hr
  all_goals subst hr
  all_goals first
    | exact parsePres_lit_none rfl rfl
    | exact parsePres_lit_some rfl rfl rfl
    | exact parsePres_lit_some rfl rfl (pushTok_atx_marker _)
    | exact parsePres_lit_sim rfl rfl rfl (by assumption)
    | exact parsePres_push2 (by assumption) rfl (by assumption) rfl ⟨_, rfl⟩

theorem parse_setext_underline_pres (s : Scanner) (l : TSLexer) (v : Tok → Bool) :
    ParsePres s (parse_setext_underline s l v) := by
  suffices h : ∀ r, parse_setext_underline s l v = r → ParsePres s r from h _ rfl
  intro r hr
  unfold parse_setext_underline at hr
  simp only [] at hr
  repeat' split at hr
  all_goals subst hr
  all_goals first
    | exact parsePres_lit_none rfl rfl
    | exact parsePres_lit_some rfl rfl rfl
    | exact parsePres_lit_some rfl rfl (pushTok_atx_marker _)
    | exact parsePres_lit_sim rfl rfl rfl (by assumption)
    | exact parsePres_push2 (by assumption) rfl (by assumption) rfl ⟨_, rfl⟩

end QMD
